import Mathlib

/-!
Verification development for the `fsd-interface` crate: a codec for the
colon-delimited, line-oriented FSD text protocol.  The Rust sources
(`src/messages.rs`, `src/enums.rs`, `src/structs.rs`, `src/util.rs`,
`src/errors.rs`) are shallowly embedded below:

* Rust `String` / `&str` values are Lean `String`s; all primitive string
  operations (split, prefix test, slicing, uppercasing) are modelled on the
  underlying character list.  The wire protocol is ASCII, where Rust's byte
  indexing and Lean's character indexing agree.
* machine integers are `Nat` / `Int` with explicit `% 2 ^ w` where Rust
  wrapping semantics matter; `f64` fields are modelled as exact rationals
  (`ℚ`), which is faithful for the bit-level properties proved here.
* fallible Rust functions returning `Result` become `Except` /  the `PRes`
  monad below; an out-of-bounds slice index (a Rust panic) is the
  distinguished outcome `PRes.oob`.
-/

namespace Fsd

/-! ## String primitives (models of Rust `str` operations) -/

/-- Model of Rust `str::to_uppercase` (the protocol is ASCII, where per-char
uppercasing coincides with Unicode uppercasing). -/
def rustToUppercase (s : String) : String := ⟨s.data.map Char.toUpper⟩

/-- Model of Rust `str::starts_with`. -/
def strStartsWith (s pre : String) : Bool := pre.data.isPrefixOf s.data

/-- Model of the Rust slice `&s[n..]` (ASCII: byte offsets and char offsets
coincide on every string this codec slices, each guarded by a prefix test). -/
def strDrop (s : String) (n : Nat) : String := ⟨s.data.drop n⟩

/-- Model of Rust `str::trim` (ASCII whitespace). -/
def rustTrim (s : String) : String :=
  ⟨((s.data.dropWhile Char.isWhitespace).reverse.dropWhile Char.isWhitespace).reverse⟩

/-- Contiguous-subsequence test on character lists. -/
def listContains (pat : List Char) : List Char → Bool
  | [] => pat.isEmpty
  | c :: rest => pat.isPrefixOf (c :: rest) || listContains pat rest

/-- Model of Rust `str::contains` with a literal pattern. -/
def strContains (s pat : String) : Bool := listContains pat.data s.data

/-- Splitter underlying Rust `str::split`: splits a character list at every
character satisfying `p`, keeping empty chunks (so splitting the empty string
yields `[[]]`, exactly as Rust's `split` yields one empty item). -/
def splitListBy (p : Char → Bool) : List Char → List (List Char)
  | [] => [[]]
  | c :: rest =>
    match splitListBy p rest with
    | h :: t => if p c then [] :: h :: t else (c :: h) :: t
    | [] => if p c then [[], []] else [[c]]

/-- Model of Rust `str::split(sep)` collected into a vector of fields. -/
def rustSplit (sep : Char) (s : String) : List String :=
  (splitListBy (fun c => c = sep) s.data).map (fun l => ⟨l⟩)

/-- Model of Rust `str::split` with a two-character set pattern (as in
`input.split(['&', '@'])`). -/
def rustSplitTwo (sep₁ sep₂ : Char) (s : String) : List String :=
  (splitListBy (fun c => c = sep₁ ∨ c = sep₂) s.data).map (fun l => ⟨l⟩)

/-- Model of Rust `str::strip_prefix(c)` for a single-character prefix. -/
def stripPrefixChar (c : Char) (s : String) : Option String :=
  match s.data with
  | [] => none
  | c' :: rest => if c' = c then some ⟨rest⟩ else none

/-- Model of `util::assemble_with_colons` / the ad-hoc colon-joining loops in
`messages.rs`: interleaves `":"` between the chunks. -/
def assemble_with_colons : List String → String
  | [] => ""
  | [s] => s
  | s :: rest => s ++ ":" ++ assemble_with_colons rest

/-! ## Decimal parsing and formatting (models of Rust `FromStr` for integers
and of `format!` numeric padding) -/

/-- Numeric value of a decimal digit character. -/
def digitVal (c : Char) : Nat := c.toNat - 48

/-- Accumulating decimal read, as Rust's integer `FromStr` performs. -/
def parseDigits (cs : List Char) : Nat := cs.foldl (fun a c => a * 10 + digitVal c) 0

/-- Sign handling of Rust's integer `FromStr`: a single leading `+` is
skipped. -/
def stripLeadingPlus (cs : List Char) : List Char :=
  match cs with
  | '+' :: rest => rest
  | cs => cs

/-- Model of Rust `str::parse::<uN>()`: an optional `+` sign, then one or more
decimal digits, rejecting values `≥ bound` (Rust reports these as overflow). -/
def rustParseUNat (s : String) (bound : Nat) : Option Nat :=
  let cs := stripLeadingPlus s.data
  if cs.isEmpty then none
  else if cs.all Char.isDigit then
    let n := parseDigits cs
    if n < bound then some n else none
  else none

def rustParseU8 (s : String) : Option Nat := rustParseUNat s 256
def rustParseU16 (s : String) : Option Nat := rustParseUNat s 65536
def rustParseU32 (s : String) : Option Nat := rustParseUNat s (2 ^ 32)
def rustParseU64 (s : String) : Option Nat := rustParseUNat s (2 ^ 64)
def rustParseUsize (s : String) : Option Nat := rustParseUNat s (2 ^ 64)

/-- Model of Rust `str::parse::<iN>()` with the type's bounds. -/
def rustParseInt (s : String) (lo hi : Int) : Option Int :=
  let signAndDigits : Bool × List Char := match s.data with
    | '-' :: rest => (true, rest)
    | '+' :: rest => (false, rest)
    | cs => (false, cs)
  let cs := signAndDigits.2
  if cs.isEmpty then none
  else if cs.all Char.isDigit then
    let n : Int := parseDigits cs
    let v := if signAndDigits.1 then -n else n
    if lo ≤ v then (if v ≤ hi then some v else none) else none
  else none

def rustParseI32 (s : String) : Option Int := rustParseInt s (-(2 ^ 31)) (2 ^ 31 - 1)

/-- Numeric value of a hexadecimal digit character. -/
def hexVal (c : Char) : Nat :=
  if c.isDigit then c.toNat - 48
  else if 97 ≤ c.toNat ∧ c.toNat ≤ 102 then c.toNat - 87
  else c.toNat - 55

def isHexDigitChar (c : Char) : Bool :=
  c.isDigit ∨ (97 ≤ c.toNat ∧ c.toNat ≤ 102) ∨ (65 ≤ c.toNat ∧ c.toNat ≤ 70)

/-- Model of Rust `u16::from_str_radix(s, 16)`. -/
def rustParseHexU16 (s : String) : Option Nat :=
  let cs := match s.data with
    | '+' :: rest => rest
    | cs => cs
  if cs.isEmpty then none
  else if cs.all isHexDigitChar then
    let n := cs.foldl (fun a c => a * 16 + hexVal c) 0
    if n < 65536 then some n else none
  else none

/-- Model of Rust `str::parse::<f64>()` on the finite decimal forms the
protocol carries, with the value represented exactly as a rational (the `f64`
rounding of these parses plays no role in any property proved below). -/
def rustParseF64 (s : String) : Option ℚ :=
  let signAndRest : Bool × List Char := match s.data with
    | '-' :: rest => (true, rest)
    | '+' :: rest => (false, rest)
    | cs => (false, cs)
  let afterE := splitListBy (fun c => c = 'e' ∨ c = 'E') signAndRest.2
  let withExp : Option (List Char × Int) := match afterE with
    | [m] => some (m, 0)
    | [m, e] =>
      let eSignAndRest : Bool × List Char := match e with
        | '-' :: rest => (true, rest)
        | '+' :: rest => (false, rest)
        | cs => (false, cs)
      if eSignAndRest.2.isEmpty ∨ ¬ eSignAndRest.2.all Char.isDigit then none
      else
        let ev : Int := parseDigits eSignAndRest.2
        some (m, if eSignAndRest.1 then -ev else ev)
    | _ => none
  match withExp with
  | none => none
  | some (m, ex) =>
    let parts := splitListBy (fun c => c = '.') m
    let ipFp : Option (List Char × List Char) := match parts with
      | [ip] => some (ip, [])
      | [ip, fp] => some (ip, fp)
      | _ => none
    match ipFp with
    | none => none
    | some (ip, fp) =>
      if (ip.isEmpty ∧ fp.isEmpty) ∨ ¬ ip.all Char.isDigit ∨ ¬ fp.all Char.isDigit then none
      else
        let mant : ℚ := (parseDigits ip : ℚ) + (parseDigits fp : ℚ) / ((10 : ℚ) ^ fp.length)
        let v := mant * (10 : ℚ) ^ ex
        some (if signAndRest.1 then -v else v)

/-- Reversed decimal digit characters of `n`, computed with explicit fuel so
that the definition is structural (and hence evaluates inside the kernel). -/
def natDigitsRevFuel : Nat → Nat → List Char
  | 0, _ => []
  | fuel + 1, n => if n < 10 then [Nat.digitChar n] else Nat.digitChar (n % 10) :: natDigitsRevFuel fuel (n / 10)

def natDigitsRev (n : Nat) : List Char := natDigitsRevFuel (n + 1) n

/-- Model of Rust `format!("{}", n)` for an unsigned integer. -/
def natToStr (n : Nat) : String := ⟨(natDigitsRev n).reverse⟩

/-- Model of Rust `format!("{}", i)` for a signed integer. -/
def intToStr (i : Int) : String :=
  if i < 0 then "-" ++ natToStr i.natAbs else natToStr i.toNat

/-- Model of Rust `format!("{:0w}", n)`: decimal digits left-padded with
zeros to a minimum width `w`. -/
def fmtPad (w : Nat) (n : Nat) : String :=
  let ds := (natDigitsRev n).reverse
  ⟨List.replicate (w - ds.length) '0' ++ ds⟩

/-! ## errors.rs -/

/-- Embedding of `errors::FsdMessageParseError`. -/
inductive FsdMessageParseError : Type where
  | InvalidFieldCount (expected found : Nat)
  | InvalidRating (raw : String)
  | InvalidProtocolRevison (raw : String)
  | InvalidFlightRules (raw : String)
  | InvalidSimulatorType (raw : String)
  | InvalidAtcType (raw : String)
  | InvalidTime (raw : String)
  | InvalidMinute (raw : String)
  | InvalidIndex (raw : String)
  | InvalidFrequency (raw : String)
  | InvalidVisRange (raw : String)
  | InvalidCoordinate (raw : String)
  | InvalidTransponderMode (raw : String)
  | InvalidTransponderCode (raw : String)
  | InvalidAircraftConfig (raw : String)
  | InvalidPitchBankHeading (raw : String)
  | InvalidAltitude (raw : String)
  | InvalidAltitudeDifference (raw : String)
  | InvalidVoiceCapability (raw : String)
  | InvalidSpeed (raw : String)
  | InvalidClientID (raw : String)
  | InvalidVersionNumber (raw : String)
  | InvalidNosewheelAngle (raw : String)
  | InvalidPositionVelocity (raw : String)
  | UnknownMessageType (raw : String)
  | InvalidPingTime (raw : String)
  | InvalidServerError (raw : String)
  | InvalidClientQueryType (raw : String)
  | InvalidNewAtisMessage (raw : String)
  | InvalidValidAtcStatus (raw : String)
  | InvalidATISLine (raw : String)
  | InvalidSharedStateType (raw : String)
  | InvalidClientCapability (raw : String)
  | InvalidIPAddress (raw : String)
  | InvalidPort (raw : String)
deriving DecidableEq

/-- Embedding of `errors::FsdError` (the protocol-level server fault
enumeration). -/
inductive FsdError : Type where
  | CallsignInUse
  | InvalidCallsign
  | AlreadyRegistered
  | SyntaxError
  | InvalidSourceCallsign
  | InvalidCidPassword
  | NoSuchCallsign (callsign : String)
  | NoFlightPlan (callsign : String)
  | NoWeatherProfile (station : String)
  | InvalidProtocolRevision
  | RequestedLevelTooHigh
  | ServerFull
  | CertificateSuspended
  | InvalidControl
  | InvalidPositionForRating
  | UnauthorisedClient
  | AuthTimeOut
  | Other (message : String)
deriving DecidableEq

/-- Embedding of `FsdError::error_number`. -/
def FsdError.error_number : FsdError → Nat
  | .CallsignInUse => 1
  | .InvalidCallsign => 2
  | .AlreadyRegistered => 3
  | .SyntaxError => 4
  | .InvalidSourceCallsign => 5
  | .InvalidCidPassword => 6
  | .NoSuchCallsign _ => 7
  | .NoFlightPlan _ => 8
  | .NoWeatherProfile _ => 9
  | .InvalidProtocolRevision => 10
  | .RequestedLevelTooHigh => 11
  | .ServerFull => 12
  | .CertificateSuspended => 13
  | .InvalidControl => 14
  | .InvalidPositionForRating => 15
  | .UnauthorisedClient => 16
  | .AuthTimeOut => 17
  | .Other _ => 18

/-! ## Result-with-panic monad

Rust's parsers return `Result<_, FsdMessageParseError>`, but several of them
index a slice without first checking its length; in Rust that is a panic, not
an error value.  `PRes` makes the three outcomes explicit: `ok`, `err`, and
`oob` (an out-of-bounds slice index, i.e. a panic). -/

inductive PRes (α : Type) : Type where
  | ok (a : α)
  | err (e : FsdMessageParseError)
  | oob
deriving DecidableEq

instance : Monad PRes where
  pure := .ok
  bind x f := match x with
    | .ok a => f a
    | .err e => .err e
    | .oob => .oob

/-- Lift a plain `Result` (no panicking operation inside) into `PRes`,
modelling Rust's `?` on a sub-parser. -/
def liftE {α : Type} : Except FsdMessageParseError α → PRes α
  | .ok a => .ok a
  | .error e => .err e

/-- Model of the Rust slice index `fields[i]`, which panics when out of
bounds. -/
def idx (fields : List String) (i : Nat) : PRes String :=
  match fields.get? i with
  | some s => .ok s
  | none => .oob

/-- Model of Rust `fields.get(i)` (the non-panicking accessor). -/
def getOpt (fields : List String) (i : Nat) : Option String := fields.get? i

/-- Model of `Option::ok_or`. -/
def okOr {α : Type} (o : Option α) (e : FsdMessageParseError) : PRes α :=
  match o with
  | some a => .ok a
  | none => .err e

/-- Embedding of the `check_min_num_fields!` macro of `messages.rs`. -/
def checkMin (fields : List String) (i : Nat) : PRes Unit :=
  if fields.length < i then .err (.InvalidFieldCount i fields.length) else .ok ()

/-- Embedding of the `check_exact_num_fields!` macro of `messages.rs`. -/
def checkExact (fields : List String) (i : Nat) : PRes Unit :=
  if fields.length ≠ i then .err (.InvalidFieldCount i fields.length) else .ok ()

/-! ## util.rs: pitch/bank/heading bit-packing -/

/-- Model of the Rust saturating cast `q as u32` on a finite float value:
truncation toward zero, clamped to `[0, 2^32 - 1]`. -/
def rustAsU32 (q : ℚ) : Nat := if q < 0 then 0 else min (⌊q⌋.toNat) (2 ^ 32 - 1)

/-- Embedding of `util::encode_pitch_bank_heading`.  The `f64` arithmetic is
modelled exactly over `ℚ`; each u32 shift is reduced mod `2 ^ 32` exactly as
the Rust `<<` on `u32` discards overflowing bits. -/
def encode_pitch_bank_heading (pitch bank heading : ℚ) (on_ground : Bool) : Nat :=
  let p := pitch / (-360);
  let p := if p < 0 then p + 1 else p;
  let p := p * 1024;
  let b := bank / (-360);
  let b := if b < 0 then b + 1 else b;
  let b := b * 1024;
  let h := heading / 360 * 1024;
  ((rustAsU32 p <<< 22) % 2 ^ 32) ||| ((rustAsU32 b <<< 12) % 2 ^ 32) |||
    ((rustAsU32 h <<< 2) % 2 ^ 32) ||| ((if on_ground then 1 else 0) <<< 1)

/-- Embedding of `util::decode_pitch_bank_heading`.  All the `f64` arithmetic
performed by the Rust decoder (`x / 1024.0 * 360.0` on integers `x ≤ 1023`
and the subsequent ±360 adjustments) is exact in `f64`, so the `ℚ` model is
bit-faithful. -/
def decode_pitch_bank_heading (input : Nat) : ℚ × ℚ × ℚ × Bool :=
  let on_ground := (input &&& 2) == 1
  let i₁ := input >>> 2
  let heading₀ : ℚ := ((i₁ &&& 1023 : Nat) : ℚ)
  let i₂ := i₁ >>> 10
  let bank₀ : ℚ := ((i₂ &&& 1023 : Nat) : ℚ)
  let i₃ := i₂ >>> 10
  let pitch₀ : ℚ := (i₃ : ℚ)
  let pitch₁ := pitch₀ / 1024 * (-360)
  let pitch₂ :=
    if pitch₁ > 180 then pitch₁ - 360
    else if pitch₁ ≤ -180 then pitch₁ + 360
    else pitch₁
  let bank₁ := bank₀ / 1024 * (-360)
  let bank₂ :=
    if bank₁ > 180 then bank₁ - 360
    else if bank₁ ≤ -180 then bank₁ + 360
    else bank₁
  let heading₁ := heading₀ / 1024 * 360
  let heading₂ :=
    if heading₁ < 0 then heading₁ + 360
    else if heading₁ ≥ 360 then heading₁ - 360
    else heading₁
  (pitch₂, bank₂, heading₂, on_ground)

/-! ## util.rs: altitude parsing -/

/-- Embedding of `util::parse_altitude`.  The `as_num *= 100` is performed on
a `u32`, hence the `% 2 ^ 32` (release-mode wrapping). -/
def parse_altitude (input : String) : Except FsdMessageParseError Nat :=
  if input.data.isEmpty then .ok 0
  else
    let flight_level := strStartsWith (rustToUppercase input) "FL"
    let input_trimmed := if flight_level then strDrop input 2 else input
    match rustParseU32 input_trimmed with
    | none => .error (.InvalidAltitude input)
    | some as_num => .ok (if flight_level then as_num * 100 % 2 ^ 32 else as_num)

/-! ## enums.rs: simple field enumerations -/

/-- Embedding of `enums::ClientCapability`. -/
inductive ClientCapability : Type where
  | Version | ATCInfo | ModelDesc | ACConfig | VisUpdate | RadarUpdate
  | ATCMulti | SecPos | IcaoEq | FastPos | OngoingCoord | InterimPos
  | Stealth | Teamspeak | NewATIS | Mumble | GlobalData | Simulated | ObsPilot
deriving DecidableEq

/-- Embedding of `FromStr for ClientCapability`. -/
def ClientCapability.fromStr (s : String) : Except FsdMessageParseError ClientCapability :=
  match rustToUppercase s with
  | "VERSION" => .ok .Version
  | "ATCINFO" => .ok .ATCInfo
  | "MODELDESC" => .ok .ModelDesc
  | "ACCONFIG" => .ok .ACConfig
  | "VISUPDATE" => .ok .VisUpdate
  | "RADARUPDATE" => .ok .RadarUpdate
  | "ATCMULTI" => .ok .ATCMulti
  | "SECPOS" => .ok .SecPos
  | "ICAOEQ" => .ok .IcaoEq
  | "FASTPOS" => .ok .FastPos
  | "ONGOINGCOORD" => .ok .OngoingCoord
  | "INTERIMPOS" => .ok .InterimPos
  | "STEALTH" => .ok .Stealth
  | "TEAMSPEAK" => .ok .Teamspeak
  | "NEWATIS" => .ok .NewATIS
  | "MUMBLE" => .ok .Mumble
  | "GLOBALDATA" => .ok .GlobalData
  | "SIMULATED" => .ok .Simulated
  | "OBSPILOT" => .ok .ObsPilot
  | _ => .error (.InvalidClientCapability s)

/-- Embedding of `enums::AtcRating`. -/
inductive AtcRating : Type where
  | Observer | S1 | S2 | S3 | C1 | C2 | C3 | I1 | I2 | I3
  | Supervisor | Administrator
deriving DecidableEq

/-- Discriminant values of `AtcRating` (`Observer = 1`, ascending). -/
def AtcRating.toU8 : AtcRating → Nat
  | .Observer => 1 | .S1 => 2 | .S2 => 3 | .S3 => 4 | .C1 => 5 | .C2 => 6
  | .C3 => 7 | .I1 => 8 | .I2 => 9 | .I3 => 10 | .Supervisor => 11
  | .Administrator => 12

/-- Embedding of `FromStr for AtcRating`. -/
def AtcRating.fromStr (s : String) : Except FsdMessageParseError AtcRating :=
  match rustParseU8 s with
  | none => .error (.InvalidRating s)
  | some 1 => .ok .Observer
  | some 2 => .ok .S1
  | some 3 => .ok .S2
  | some 4 => .ok .S3
  | some 5 => .ok .C1
  | some 6 => .ok .C2
  | some 7 => .ok .C3
  | some 8 => .ok .I1
  | some 9 => .ok .I2
  | some 10 => .ok .I3
  | some 11 => .ok .Supervisor
  | some 12 => .ok .Administrator
  | some _ => .error (.InvalidRating s)

/-- Embedding of `enums::PilotRating`. -/
inductive PilotRating : Type where
  | Student | VFR | IFR | Instructor | Supervisor
deriving DecidableEq

/-- Embedding of `FromStr for PilotRating`. -/
def PilotRating.fromStr (s : String) : Except FsdMessageParseError PilotRating :=
  match rustParseU8 s with
  | none => .error (.InvalidRating s)
  | some 1 => .ok .Student
  | some 2 => .ok .VFR
  | some 3 => .ok .IFR
  | some 4 => .ok .Instructor
  | some 5 => .ok .Supervisor
  | some _ => .error (.InvalidRating s)

/-- Embedding of `enums::ProtocolRevision`. -/
inductive ProtocolRevision : Type where
  | Classic | VatsimNoAuth | VatsimAuth | Vatsim2022
deriving DecidableEq

/-- Embedding of `FromStr for ProtocolRevision`. -/
def ProtocolRevision.fromStr (s : String) : Except FsdMessageParseError ProtocolRevision :=
  match s with
  | "1" => .ok .Classic
  | "9" => .ok .Classic
  | "10" => .ok .VatsimNoAuth
  | "100" => .ok .VatsimAuth
  | "101" => .ok .Vatsim2022
  | _ => .error (.InvalidProtocolRevison s)

/-- Embedding of `enums::SimulatorType`. -/
inductive SimulatorType : Type where
  | Unknown | MSFS95 | MSFS98 | MSCFS | MSFS2000 | MSCFS2 | MSFS2002 | MSCFS3
  | MSFS2004 | MSFSX | MSFS | MSFS2024 | XPLANE8 | XPLANE9 | XPLANE10
  | XPLANE11 | XPLANE12 | P3Dv1 | P3Dv2 | P3Dv3 | P3Dv4 | P3Dv5 | FlightGear
deriving DecidableEq

/-- Embedding of `From<S> for SimulatorType` (total: unknown tokens map to
`Unknown`). -/
def SimulatorType.fromStr (s : String) : SimulatorType :=
  match s with
  | "1" => .MSFS95
  | "2" => .MSFS98
  | "3" => .MSCFS
  | "4" => .MSFS2000
  | "5" => .MSCFS2
  | "6" => .MSFS2002
  | "7" => .MSCFS3
  | "8" => .MSFS2004
  | "9" => .MSFSX
  | "10" => .MSFS
  | "11" => .MSFS2024
  | "12" => .XPLANE8
  | "13" => .XPLANE9
  | "14" => .XPLANE10
  | "15" => .XPLANE11
  | "16" => .XPLANE12
  | "17" => .P3Dv1
  | "18" => .P3Dv2
  | "19" => .P3Dv3
  | "20" => .P3Dv4
  | "21" => .P3Dv5
  | "22" => .FlightGear
  | _ => .Unknown

/-- Embedding of `enums::FlightRules`. -/
inductive FlightRules : Type where
  | DVFR | SVFR | VFR | IFR
deriving DecidableEq

/-- Embedding of `FromStr for FlightRules`. -/
def FlightRules.fromStr (s : String) : Except FsdMessageParseError FlightRules :=
  match rustToUppercase s with
  | "D" => .ok .DVFR
  | "S" => .ok .SVFR
  | "V" => .ok .VFR
  | "I" => .ok .IFR
  | up => .error (.InvalidFlightRules up)

/-- Embedding of `Display for FlightRules`. -/
def FlightRules.display : FlightRules → String
  | .DVFR => "D"
  | .VFR => "V"
  | .SVFR => "S"
  | .IFR => "I"

/-- Embedding of `enums::AtcType`. -/
inductive AtcType : Type where
  | Observer | FlightServiceStation | Delivery | Ground | Tower | Approach | Centre
deriving DecidableEq

/-- Embedding of `FromStr for AtcType`. -/
def AtcType.fromStr (s : String) : Except FsdMessageParseError AtcType :=
  match s with
  | "0" => .ok .Observer
  | "1" => .ok .FlightServiceStation
  | "2" => .ok .Delivery
  | "3" => .ok .Ground
  | "4" => .ok .Tower
  | "5" => .ok .Approach
  | "6" => .ok .Centre
  | _ => .error (.InvalidAtcType s)

/-- Embedding of `enums::TransponderMode`. -/
inductive TransponderMode : Type where
  | Standby | ModeC | Ident
deriving DecidableEq

/-- Embedding of `FromStr for TransponderMode`. -/
def TransponderMode.fromStr (s : String) : Except FsdMessageParseError TransponderMode :=
  match s with
  | "S" => .ok .Standby
  | "N" => .ok .ModeC
  | "Y" => .ok .Ident
  | _ => .error (.InvalidTransponderMode s)

/-- Embedding of `Display for TransponderMode`. -/
def TransponderMode.display : TransponderMode → String
  | .Standby => "S"
  | .ModeC => "N"
  | .Ident => "Y"

/-- Embedding of `enums::VoiceCapability`. -/
inductive VoiceCapability : Type where
  | Unknown | Voice | Text | Receive
deriving DecidableEq

/-- Embedding of `FromStr for VoiceCapability` (lowercases its input; the
empty string is `Unknown`). -/
def VoiceCapability.fromStr (s : String) : Except FsdMessageParseError VoiceCapability :=
  if s.data.isEmpty then .ok .Unknown
  else
    match (⟨s.data.map Char.toLower⟩ : String) with
    | "v" => .ok .Voice
    | "t" => .ok .Text
    | "r" => .ok .Receive
    | low => .error (.InvalidVoiceCapability low)

/-- Embedding of `Display for VoiceCapability`. -/
def VoiceCapability.display : VoiceCapability → String
  | .Unknown => ""
  | .Voice => "v"
  | .Text => "t"
  | .Receive => "r"

/-! ## structs.rs: TransponderCode -/

/-- Embedding of `structs::TransponderCode` (a `u16` whose four decimal digit
positions are each octal). -/
structure TransponderCode : Type where
  code : Nat
deriving DecidableEq

/-- Embedding of `TryFrom<u16> for TransponderCode`.  The Rust code mutates
its `code` argument while extracting digits; functionally, the residue after
the third subtraction (the value formatted into the error message) is the
last digit. -/
def TransponderCode.tryFromU16 (code : Nat) : Except FsdMessageParseError TransponderCode :=
  let d₀ := code / 1000
  let r₁ := code - d₀ * 1000
  let d₁ := r₁ / 100
  let r₂ := r₁ - d₁ * 100
  let d₂ := r₂ / 10
  let r₃ := r₂ - d₂ * 10
  let d₃ := r₃
  if [d₀, d₁, d₂, d₃].any (fun x => 7 < x) then
    .error (.InvalidTransponderCode (fmtPad 4 r₃))
  else .ok ⟨d₀ * 1000 + d₁ * 100 + d₂ * 10 + d₃⟩

/-- Embedding of `FromStr for TransponderCode`. -/
def TransponderCode.fromStr (s : String) : Except FsdMessageParseError TransponderCode :=
  match rustParseU16 s with
  | none => .error (.InvalidTransponderCode s)
  | some code => TransponderCode.tryFromU16 code

/-- Embedding of `Display for TransponderCode` (`format!("{:04}", code)`). -/
def TransponderCode.display (c : TransponderCode) : String := fmtPad 4 c.code

/-- Modelled from the spec: `TransponderCode::as_bcd_format` is referenced by
the force-beacon-code client-query sub-variant but its definition is not
under `src/`; spec §9 marks the exact nibble layout an open question.
Modelled as 3-bit-per-octal-digit packing. -/
def TransponderCode.asBcdFormat (c : TransponderCode) : String :=
  natToStr (c.code / 1000 % 10 * 512 + c.code / 100 % 10 * 64 + c.code / 10 % 10 * 8 + c.code % 10)

/-- Modelled from the spec: `TransponderCode::try_from_bcd_format` is
referenced by the force-beacon-code client-query sub-variant but its
definition is not under `src/` (spec §9).  Modelled as the inverse of
`TransponderCode.asBcdFormat`. -/
def TransponderCode.tryFromBcdFormat (s : String) : Except FsdMessageParseError TransponderCode :=
  match rustParseU16 s with
  | none => .error (.InvalidTransponderCode s)
  | some n =>
    if n < 4096 then
      .ok ⟨n / 512 % 8 * 1000 + n / 64 % 8 * 100 + n / 8 % 8 * 10 + n % 8⟩
    else .error (.InvalidTransponderCode s)

/-! ## structs.rs: RadioFrequency -/

/-- Embedding of `structs::RadioFrequency` (whole-MHz part and thousandths
part, e.g. 118.3 MHz is `⟨118, 300⟩`). -/
structure RadioFrequency : Type where
  left : Nat
  right : Nat
deriving DecidableEq

/-- Embedding of `RadioFrequency::new` with its validity check. -/
def RadioFrequency.new (left right : Nat) : Except FsdMessageParseError RadioFrequency :=
  if ¬ ((118 ≤ left ∧ left ≤ 137) ∨ (left = 199 ∧ right = 998) ∨ (left = 149 ∧ right = 999)) then
    .error (.InvalidFrequency (natToStr left ++ "." ++ fmtPad 3 right))
  else .ok ⟨left, right⟩

/-- Embedding of `RadioFrequency::to_human_readable_string`
(`format!("{}.{:03}", left, right)`). -/
def RadioFrequency.to_human_readable_string (f : RadioFrequency) : String :=
  natToStr f.left ++ "." ++ fmtPad 3 f.right

/-- Embedding of `RadioFrequency::try_from_human_readable_string`: splits on
`'.'` and reads the first two chunks. -/
def RadioFrequency.try_from_human_readable_string (input : String) :
    Except FsdMessageParseError RadioFrequency :=
  let split := rustSplit '.' input
  match split.get? 0 with
  | none => .error (.InvalidFrequency input)
  | some leftStr =>
    match rustParseU16 leftStr with
    | none => .error (.InvalidFrequency input)
    | some left =>
      match split.get? 1 with
      | none => .error (.InvalidFrequency input)
      | some rightStr =>
        match rustParseU16 rightStr with
        | none => .error (.InvalidFrequency input)
        | some right => RadioFrequency.new left right

/-- Embedding of `FromStr for RadioFrequency` (the compact 5-character wire
form: two digits of the whole part with its leading `1` dropped, then the
three thousandths digits). -/
def RadioFrequency.fromStr (short_form : String) : Except FsdMessageParseError RadioFrequency :=
  if short_form.data.length ≠ 5 then .error (.InvalidFrequency short_form)
  else
    match rustParseU16 ⟨short_form.data.take 2⟩ with
    | none => .error (.InvalidFrequency short_form)
    | some left =>
      match rustParseU16 ⟨short_form.data.drop 2⟩ with
      | none => .error (.InvalidFrequency short_form)
      | some right => RadioFrequency.new (left + 100) right

/-- Embedding of `Display for RadioFrequency`
(`format!("{}{:03}", left - 100, right)`). -/
def RadioFrequency.display (f : RadioFrequency) : String :=
  natToStr (f.left - 100) ++ fmtPad 3 f.right

/-! ## util.rs: frequency lists and capability sets -/

/-- Embedding of `util::split_frequencies`. -/
def split_frequencies (input : String) : List RadioFrequency :=
  (rustSplitTwo '&' '@' input).filterMap (fun x =>
    match RadioFrequency.fromStr x with
    | .ok f => some f
    | .error _ => none)

/-- Embedding of `util::group_frequencies_without_symbol`. -/
def group_frequencies_without_symbol : List RadioFrequency → String
  | [] => ""
  | [f] => f.display
  | f :: rest => f.display ++ "&" ++ group_frequencies_without_symbol rest

/-- Embedding of `util::group_frequencies_with_symbol`. -/
def group_frequencies_with_symbol : List RadioFrequency → String
  | [] => ""
  | [f] => "@" ++ f.display
  | f :: rest => "@" ++ f.display ++ "&" ++ group_frequencies_with_symbol rest

/-- Embedding of `util::read_capabilities`; the Rust `HashSet` is modelled as
a duplicate-free list in insertion order. -/
def read_capabilities (caps_str : List String) : List ClientCapability :=
  caps_str.foldl (fun acc entry =>
    let split := rustSplit '=' entry
    match split.get? 0 with
    | none => acc
    | some k =>
      match split.get? 1 with
      | none => acc
      | some v =>
        match ClientCapability.fromStr (rustToUppercase k) with
        | .error _ => acc
        | .ok cap => if v = "1" then (if cap ∈ acc then acc else acc ++ [cap]) else acc) []

/-- Embedding of `util::parse_new_atis`: reads the trailing ATIS letter from
the first chunk and splits the second on space/hyphen into wind and pressure
groups.  `split[1]` is a panicking index in the source. -/
def parse_new_atis (input : List String) : PRes (Char × String × String) := do
  let i₀ ← idx input 0
  let i₁ ← idx input 1
  let first := rustToUppercase i₀
  let last := rustToUppercase (rustTrim i₁)
  let atis_letter ← okOr first.data.getLast? (.InvalidNewAtisMessage (first ++ ":" ++ last))
  if atis_letter.toNat < 65 ∨ 90 < atis_letter.toNat then
    PRes.err (.InvalidNewAtisMessage (first ++ ":" ++ last))
  else
    let split := (splitListBy (fun c => c = ' ' ∨ c = '-') last.data).map
      (fun l => (⟨l⟩ : String))
    let s₀ ← idx split 0
    if s₀.data.length < 7 then PRes.err (.InvalidNewAtisMessage (first ++ ":" ++ last))
    else
      let wind := s₀
      let s₁ ← idx split 1
      if s₁.data.length < 4 then PRes.err (.InvalidNewAtisMessage (first ++ ":" ++ last))
      else
        let pressure := s₁
        pure (atis_letter, wind, pressure)

/-! ## structs.rs: PlaneInfo and FlightPlan -/

/-- Embedding of `structs::PlaneInfo`. -/
structure PlaneInfo : Type where
  equipment : Option String
  airline : Option String
  livery : Option String
deriving DecidableEq

/-- Embedding of `From<&[&str]> for PlaneInfo` (reads `KEY=value` chunks;
unknown keys are ignored). -/
def PlaneInfo.fromFields (value : List String) : PlaneInfo :=
  value.foldl (fun plane_info entry =>
    let split := rustSplit '=' entry
    match split.get? 0 with
    | none => plane_info
    | some k =>
      match split.get? 1 with
      | none => plane_info
      | some v =>
        match rustToUppercase k with
        | "EQUIPMENT" => { plane_info with equipment := some v }
        | "AIRLINE" => { plane_info with airline := some v }
        | "LIVERY" => { plane_info with livery := some v }
        | _ => plane_info) ⟨none, none, none⟩

/-- Embedding of `Display for PlaneInfo`. -/
def PlaneInfo.display (p : PlaneInfo) : String :=
  let chunks := (match p.equipment with
      | some e => ["EQUIPMENT=" ++ e]
      | none => []) ++
    (match p.airline with
      | some a => ["AIRLINE=" ++ a]
      | none => []) ++
    (match p.livery with
      | some l => ["LIVERY=" ++ l]
      | none => [])
  assemble_with_colons chunks

/-- Embedding of `structs::FlightPlan` (the fixed 15-field record). -/
structure FlightPlan : Type where
  flight_rules : FlightRules
  ac_type : String
  filed_tas : Nat
  origin : String
  etd : Nat
  atd : Nat
  cruise_level : Nat
  destination : String
  hours_enroute : Nat
  mins_enroute : Nat
  hours_fuel : Nat
  mins_fuel : Nat
  alternate : String
  remarks : String
  route : String
deriving DecidableEq

/-- Embedding of `FlightPlan::new` (uppercases the aerodrome/route fields). -/
def FlightPlan.new (flight_rules : FlightRules) (ac_type : String) (filed_tas : Nat)
    (origin : String) (etd atd cruise_level : Nat) (destination : String)
    (hours_enroute mins_enroute hours_fuel mins_fuel : Nat)
    (alternate remarks route : String) : FlightPlan :=
  { flight_rules,
    ac_type := rustToUppercase ac_type,
    filed_tas,
    origin := rustToUppercase origin,
    etd, atd, cruise_level,
    destination := rustToUppercase destination,
    hours_enroute, mins_enroute, hours_fuel, mins_fuel,
    alternate := rustToUppercase alternate,
    remarks,
    route := rustToUppercase route }

/-- Helper shared by the numeric flight-plan fields: an empty field reads as
zero, otherwise the field is parsed with the given error constructor. -/
def parseFpField (s : String) (bound : Nat) (mk : String → FsdMessageParseError) :
    Except FsdMessageParseError Nat :=
  if s.data.isEmpty then .ok 0
  else
    match rustParseUNat s bound with
    | none => .error (mk s)
    | some n => .ok n

/-- Embedding of `TryFrom<&[&str]> for FlightPlan`. -/
def FlightPlan.tryFrom (fields : List String) : PRes FlightPlan := do
  checkExact fields 15
  let f₂ ← idx fields 2
  let filed_tas ← liftE (parseFpField f₂ 65536 .InvalidSpeed)
  let f₄ ← idx fields 4
  let etd ← liftE (parseFpField f₄ 65536 .InvalidTime)
  let f₅ ← idx fields 5
  let atd ← liftE (parseFpField f₅ 65536 .InvalidTime)
  let f₈ ← idx fields 8
  let hours_enroute ← liftE (parseFpField f₈ 256 .InvalidTime)
  let f₁₀ ← idx fields 10
  let hours_fuel ← liftE (parseFpField f₁₀ 256 .InvalidTime)
  let f₉ ← idx fields 9
  let mins_enroute ← liftE (parseFpField f₉ 256 .InvalidTime)
  if 59 < mins_enroute then PRes.err (.InvalidMinute f₉) else do
  let f₁₁ ← idx fields 11
  let mins_fuel ← liftE (parseFpField f₁₁ 256 .InvalidTime)
  if 59 < mins_fuel then PRes.err (.InvalidMinute f₁₁) else do
  let f₀ ← idx fields 0
  let flight_rules ← liftE (FlightRules.fromStr f₀)
  let f₁ ← idx fields 1
  let f₃ ← idx fields 3
  let f₆ ← idx fields 6
  let cruise_level ← liftE (parse_altitude f₆)
  let f₇ ← idx fields 7
  let f₁₂ ← idx fields 12
  let f₁₃ ← idx fields 13
  let f₁₄ ← idx fields 14
  pure (FlightPlan.new flight_rules f₁ filed_tas f₃ etd atd cruise_level f₇
    hours_enroute mins_enroute hours_fuel mins_fuel f₁₂ f₁₃ f₁₄)

/-- Embedding of `Display for FlightPlan`. -/
def FlightPlan.display (fp : FlightPlan) : String :=
  fp.flight_rules.display ++ ":" ++ fp.ac_type ++ ":" ++ natToStr fp.filed_tas ++ ":" ++
    fp.origin ++ ":" ++ natToStr fp.etd ++ ":" ++ natToStr fp.atd ++ ":" ++
    natToStr fp.cruise_level ++ ":" ++ fp.destination ++ ":" ++
    natToStr fp.hours_enroute ++ ":" ++ natToStr fp.mins_enroute ++ ":" ++
    natToStr fp.hours_fuel ++ ":" ++ natToStr fp.mins_fuel ++ ":" ++
    fp.alternate ++ ":" ++ fp.remarks ++ ":" ++ fp.route

/-! ## enums.rs: scratchpad sub-language -/

/-- Embedding of `enums::Operator`. -/
inductive Operator : Type where
  | Exactly | OrLess | OrGreater
deriving DecidableEq

/-- Embedding of `Display for Operator`. -/
def Operator.display : Operator → String
  | .Exactly => "="
  | .OrLess => "-"
  | .OrGreater => "+"

/-- Embedding of `enums::GroundState`. -/
inductive GroundState : Type where
  | NoState | OnFrequency | DeIcing | Startup | Pushback | Taxi | LineUp
  | TakeOff | TaxiIn | OnBlock
deriving DecidableEq

/-- Embedding of `Display for GroundState`. -/
def GroundState.display : GroundState → String
  | .NoState => "NSTS"
  | .OnFrequency => "ONFREQ"
  | .DeIcing => "DE-ICE"
  | .Startup => "STUP"
  | .Pushback => "PUSH"
  | .Taxi => "TAXI"
  | .LineUp => "LINEUP"
  | .TakeOff => "DEPA"
  | .TaxiIn => "TXIN"
  | .OnBlock => "PARK"

/-- Embedding of `enums::ScratchPad`. -/
inductive ScratchPad : Type where
  | PlainTextOrDirect (text : String)
  | RateOfClimbDescent (r : Nat)
  | Heading (h : Nat)
  | Speed (s : Nat)
  | Mach (m : Nat)
  | SpeedOperator (op : Operator)
  | RateOfClimbDescentOperator (op : Operator)
  | Stand (stand : String)
  | CancelledStand
  | ManualStand (icao stand : String)
  | CancelledManualStand
  | ClearanceReceived
  | ClearanceCancelled
  | GroundState (gs : GroundState)
deriving DecidableEq

/-- Embedding of `FromStr for ScratchPad`: command prefixes, the GRP stand
forms, then the fixed tokens, falling back to verbatim plain text. -/
def ScratchPad.fromStr (s : String) : Except FsdMessageParseError ScratchPad :=
  match (stripPrefixChar 'H' s).map rustParseU32 with
  | some (some h) => .ok (.Heading h)
  | _ =>
  match (stripPrefixChar 'R' s).map rustParseU32 with
  | some (some r) => .ok (.RateOfClimbDescent r)
  | _ =>
  match (stripPrefixChar 'S' s).map rustParseU32 with
  | some (some speed) => .ok (.Speed speed)
  | _ =>
  match (stripPrefixChar 'M' s).map rustParseU32 with
  | some (some m) => .ok (.Mach m)
  | _ =>
  if 6 < s.data.length ∧ strStartsWith s "GRP/S/" then .ok (.Stand (strDrop s 6))
  else if 6 < s.data.length ∧ strStartsWith s "GRP/M/" then
    let split := rustSplit '/' s
    .ok (.ManualStand ((split.get? 0).getD "ZZZZ") ((split.get? 1).getD ""))
  else
    match s with
    | "/ASP=/" => .ok (.SpeedOperator .Exactly)
    | "/ASP-/" => .ok (.SpeedOperator .OrLess)
    | "/ASP+/" => .ok (.SpeedOperator .OrGreater)
    | "/ARC=/" => .ok (.RateOfClimbDescentOperator .Exactly)
    | "/ARC-/" => .ok (.RateOfClimbDescentOperator .OrLess)
    | "/ARC+/" => .ok (.RateOfClimbDescentOperator .OrGreater)
    | "GRP/S/" => .ok .CancelledStand
    | "GRP/M/" => .ok .CancelledManualStand
    | "NSTS" => .ok (.GroundState .NoState)
    | "NOSTATE" => .ok (.GroundState .NoState)
    | "ONFREQ" => .ok (.GroundState .OnFrequency)
    | "DE-ICE" => .ok (.GroundState .DeIcing)
    | "STUP" => .ok (.GroundState .Startup)
    | "ST-UP" => .ok (.GroundState .Startup)
    | "PUSH" => .ok (.GroundState .Pushback)
    | "TAXI" => .ok (.GroundState .Taxi)
    | "LINEUP" => .ok (.GroundState .LineUp)
    | "TXIN" => .ok (.GroundState .TaxiIn)
    | "DEPA" => .ok (.GroundState .TakeOff)
    | "PARK" => .ok (.GroundState .OnBlock)
    | "CLEA" => .ok .ClearanceReceived
    | "NOTC" => .ok .ClearanceCancelled
    | text => .ok (.PlainTextOrDirect text)

/-- Embedding of `Display for ScratchPad` (note the source writes `Mach`
without its `M` prefix and `CancelledManualStand` without the trailing
slash). -/
def ScratchPad.display : ScratchPad → String
  | .RateOfClimbDescent r => "R" ++ natToStr r
  | .Heading h => "H" ++ natToStr h
  | .Speed speed => "S" ++ natToStr speed
  | .Mach m => natToStr m
  | .SpeedOperator op => "/ASP" ++ op.display ++ "/"
  | .RateOfClimbDescentOperator op => "/ARC" ++ op.display ++ "/"
  | .PlainTextOrDirect text => text
  | .Stand stand => "GRP/S/" ++ stand
  | .CancelledStand => "GRP/S/"
  | .ManualStand icao stand => "GRP/M/" ++ icao ++ "/" ++ stand
  | .CancelledManualStand => "GRP/M"
  | .GroundState gs => gs.display
  | .ClearanceReceived => "CLEA"
  | .ClearanceCancelled => "NOTC"

/-! ## aircraft_config.rs (external JSON collaborator) -/

/-- Modelled from the spec: the aircraft-configuration payload is an opaque
nested JSON document parsed by an external collaborator (`serde_json`); per
spec §4.4 the core's only contract is extracting and re-wrapping the
`config` envelope, so the payload is modelled opaquely. -/
structure AircraftConfig : Type where
  payload : String
deriving DecidableEq

/-- Modelled from the spec: the external JSON parse delegated to by
`FromStr for AircraftConfig`; the opaque payload is carried through. -/
def AircraftConfig.fromStr (s : String) : Except FsdMessageParseError AircraftConfig :=
  .ok ⟨s⟩

/-- Modelled from the spec: `Display for AircraftConfig` re-wraps the payload
under the literal `config` key. -/
def AircraftConfig.display (c : AircraftConfig) : String :=
  "\x7b\"config\":" ++ c.payload ++ "\x7d"

/-! ## chrono timestamps (external collaborator) -/

/-- Calendar timestamp carried by the SIMTIME client query. -/
structure DateTimeUtc : Type where
  year : Nat
  month : Nat
  day : Nat
  hour : Nat
  minute : Nat
  second : Nat
deriving DecidableEq

/-- Modelled from the spec: `chrono::NaiveDateTime::parse_from_str` with
format `%Y%m%d%H%M%S` is an external collaborator; modelled as a fixed-width
14-digit read with calendar range validation. -/
def DateTimeUtc.parseSimFormat (s : String) : Option DateTimeUtc :=
  if s.data.length = 14 ∧ s.data.all Char.isDigit then
    let year := parseDigits (s.data.take 4)
    let month := parseDigits ((s.data.drop 4).take 2)
    let day := parseDigits ((s.data.drop 6).take 2)
    let hour := parseDigits ((s.data.drop 8).take 2)
    let minute := parseDigits ((s.data.drop 10).take 2)
    let second := parseDigits ((s.data.drop 12).take 2)
    if 1 ≤ month ∧ month ≤ 12 ∧ 1 ≤ day ∧ day ≤ 31 ∧ hour < 24 ∧ minute < 60 ∧ second < 60 then
      some ⟨year, month, day, hour, minute, second⟩
    else none
  else none

/-- Embedding of the `time.format("Y%m%d%H%M%S")` call in
`Display for ClientQueryType` (note the source's format string really does
emit a literal `Y` instead of the year). -/
def DateTimeUtc.formatSim (t : DateTimeUtc) : String :=
  "Y" ++ fmtPad 2 t.month ++ fmtPad 2 t.day ++ fmtPad 2 t.hour ++
    fmtPad 2 t.minute ++ fmtPad 2 t.second

/-! ## enums.rs: envelope sub-type payloads -/

/-- Embedding of `enums::ClientQueryType`. -/
inductive ClientQueryType : Type where
  | IsValidATC (atc_callsign : String)
  | Capabilities
  | Com1Freq
  | RealName
  | Server
  | ATIS
  | PublicIP
  | INF
  | FlightPlan (aircraft_callsign : String)
  | ForceBeaconCode (code : TransponderCode)
  | RequestRelief
  | CancelRequestRelief
  | HelpRequest (message : Option String)
  | CancelHelpRequest (message : Option String)
  | WhoHas (aircraft_callsign : String)
  | InitiateTrack (aircraft_callsign : String)
  | AcceptHandoff (aircraft_callsign atc_callsign : String)
  | DropTrack (aircraft_callsign : String)
  | SetFinalAltitude (aircraft_callsign : String) (altitude : Nat)
  | SetTempAltitude (aircraft_callsign : String) (altitude : Nat)
  | SetBeaconCode (aircraft_callsign : String) (code : TransponderCode)
  | SetScratchpad (aircraft_callsign : String) (contents : ScratchPad)
  | SetVoiceType (aircraft_callsign : String) (voice_capability : VoiceCapability)
  | AircraftConfigurationRequest
  | AircraftConfigurationResponse (aircraft_config : AircraftConfig)
  | SimTime (time : DateTimeUtc)
  | NewInfo (atis_letter : Char)
  | NewATIS (atis_letter : Char) (surface_wind pressure : String)
deriving DecidableEq

/-- Embedding of `Display for ClientQueryType`. -/
def ClientQueryType.display : ClientQueryType → String
  | .IsValidATC atc_callsign => "ATC:" ++ atc_callsign
  | .Capabilities => "CAPS"
  | .Com1Freq => "C?"
  | .RealName => "RN"
  | .Server => "SV"
  | .ATIS => "ATIS"
  | .PublicIP => "IP"
  | .INF => "INF"
  | .FlightPlan aircraft_callsign => "FP:" ++ aircraft_callsign
  | .RequestRelief => "BY"
  | .CancelRequestRelief => "HI"
  | .HelpRequest none => "HLP"
  | .HelpRequest (some msg) => "HLP:" ++ msg
  | .CancelHelpRequest none => "NOHLP"
  | .CancelHelpRequest (some msg) => "NOHLP:" ++ msg
  | .WhoHas aircraft_callsign => "WH:" ++ aircraft_callsign
  | .InitiateTrack aircraft_callsign => "IT:" ++ aircraft_callsign
  | .AcceptHandoff aircraft_callsign atc_callsign =>
      "HT:" ++ aircraft_callsign ++ ":" ++ atc_callsign
  | .DropTrack aircraft_callsign => "DR:" ++ aircraft_callsign
  | .SetFinalAltitude aircraft_callsign altitude =>
      "FA:" ++ aircraft_callsign ++ ":" ++ natToStr altitude
  | .SetTempAltitude aircraft_callsign altitude =>
      "TA:" ++ aircraft_callsign ++ ":" ++ natToStr altitude
  | .SetBeaconCode aircraft_callsign code =>
      "BC:" ++ aircraft_callsign ++ ":" ++ code.display
  | .ForceBeaconCode code => "IPC:W:852:" ++ code.asBcdFormat
  | .SetScratchpad aircraft_callsign contents =>
      "SC:" ++ aircraft_callsign ++ ":" ++ contents.display
  | .SetVoiceType aircraft_callsign voice_capability =>
      "VT:" ++ aircraft_callsign ++ ":" ++ voice_capability.display
  | .AircraftConfigurationRequest => "ACC:\x7b\"request\":\"full\"\x7d"
  | .AircraftConfigurationResponse aircraft_config => "ACC:" ++ aircraft_config.display
  | .NewATIS atis_letter surface_wind pressure =>
      "NEWATIS:ATIS " ++ ⟨[atis_letter]⟩ ++ ":  " ++ surface_wind ++ " - " ++ pressure
  | .NewInfo atis_letter => "NEWINFO:" ++ ⟨[atis_letter]⟩
  | .SimTime time => "SIMTIME:" ++ time.formatSim

/-- Embedding of `enums::AtisLine`. -/
inductive AtisLine : Type where
  | VoiceServer (server : String)
  | TextLine (text : String)
  | LogoffTime (time : Option Nat)
  | EndMarker (num_lines : Nat)
deriving DecidableEq

/-- Embedding of `Display for AtisLine`. -/
def AtisLine.display : AtisLine → String
  | .VoiceServer voice_server => "V:" ++ voice_server
  | .TextLine text => "T:" ++ text
  | .LogoffTime (some time) => "Z:" ++ fmtPad 4 time ++ "z"
  | .LogoffTime none => "Z:z"
  | .EndMarker num_lines => "E:" ++ natToStr num_lines

/-- Embedding of `enums::ClientResponseType`. -/
inductive ClientResponseType : Type where
  | Com1Freq (frequency : RadioFrequency)
  | ATIS (atis_line : AtisLine)
  | RealName (name sector_file : String) (rating : Nat)
  | Capabilities (capabilities : List ClientCapability)
  | PublicIP (ip_address : String)
  | Server (hostname_or_ip_address : String)
  | IsValidATC (atc_callsign : String) (valid_atc : Bool)
deriving DecidableEq

/-- Embedding of `enums::SharedStateType`. -/
inductive SharedStateType : Type where
  | Version
  | ID
  | DI
  | IHave (aircraft_callsign : String)
  | ScratchPad (aircraft_callsign : String) (contents : ScratchPad)
  | TempAltitude (aircraft_callsign : String) (altitude : Nat)
  | FinalAltitude (aircraft_callsign : String) (altitude : Nat)
  | VoiceType (aircraft_callsign : String) (voice_capability : VoiceCapability)
  | BeaconCode (aircraft_callsign : String) (code : TransponderCode)
  | HandoffCancel (aircraft_callsign : String)
  | FlightStrip (aircraft_callsign : String) (format : Option Int) (contents : Option (List String))
  | PushToDepartureList (aircraft_callsign : String)
  | PointOut (aircraft_callsign : String)
deriving DecidableEq

/-! ## messages.rs: registration, deregistration, position updates -/

/-- Embedding of `messages::AtcRegisterMessage`. -/
structure AtcRegisterMessage : Type where
  «from» : String
  «to» : String
  real_name : String
  cid : String
  password : String
  rating : AtcRating
  protocol : ProtocolRevision
deriving DecidableEq

/-- Embedding of `AtcRegisterMessage::new` (callsigns uppercased). -/
def AtcRegisterMessage.new (from_ to_ real_name cid password : String)
    (rating : AtcRating) (protocol : ProtocolRevision) : AtcRegisterMessage :=
  ⟨rustToUppercase from_, rustToUppercase to_, real_name, cid, password, rating, protocol⟩

/-- Embedding of `TryFrom<&[&str]> for AtcRegisterMessage`. -/
def AtcRegisterMessage.tryFrom (fields : List String) : PRes AtcRegisterMessage := do
  checkMin fields 7
  let f₀ ← idx fields 0
  let first := strDrop f₀ 3
  let f₁ ← idx fields 1
  let f₂ ← idx fields 2
  let f₃ ← idx fields 3
  let f₄ ← idx fields 4
  let f₅ ← idx fields 5
  let rating ← liftE (AtcRating.fromStr f₅)
  let protocol ← liftE (ProtocolRevision.fromStr ((getOpt fields 6).getD "9"))
  pure (AtcRegisterMessage.new first f₁ f₂ f₃ f₄ rating protocol)

/-- Embedding of `messages::PilotRegisterMessage`. -/
structure PilotRegisterMessage : Type where
  «from» : String
  «to» : String
  cid : String
  password : String
  rating : PilotRating
  protocol : ProtocolRevision
  simulator_type : SimulatorType
  real_name : String
deriving DecidableEq

/-- Embedding of `PilotRegisterMessage::new`. -/
def PilotRegisterMessage.new (from_ to_ real_name cid password : String)
    (rating : PilotRating) (protocol : ProtocolRevision) (simulator_type : SimulatorType) :
    PilotRegisterMessage :=
  ⟨rustToUppercase from_, rustToUppercase to_, cid, password, rating, protocol,
    simulator_type, real_name⟩

/-- Embedding of `TryFrom<&[&str]> for PilotRegisterMessage` (the real name
is the optional eighth field). -/
def PilotRegisterMessage.tryFrom (fields : List String) : PRes PilotRegisterMessage := do
  checkMin fields 7
  let f₀ ← idx fields 0
  let first := strDrop f₀ 3
  let f₁ ← idx fields 1
  let real_name := (getOpt fields 7).getD ""
  let f₂ ← idx fields 2
  let f₃ ← idx fields 3
  let f₄ ← idx fields 4
  let rating ← liftE (PilotRating.fromStr f₄)
  let f₅ ← idx fields 5
  let protocol ← liftE (ProtocolRevision.fromStr f₅)
  let f₆ ← idx fields 6
  pure (PilotRegisterMessage.new first f₁ real_name f₂ f₃ rating protocol
    (SimulatorType.fromStr f₆))

/-- Embedding of `messages::AtcDeregisterMessage`. -/
structure AtcDeregisterMessage : Type where
  «from» : String
  cid : String
deriving DecidableEq

/-- Embedding of `AtcDeregisterMessage::new`. -/
def AtcDeregisterMessage.new (from_ cid : String) : AtcDeregisterMessage :=
  ⟨rustToUppercase from_, cid⟩

/-- Embedding of `TryFrom<&[&str]> for AtcDeregisterMessage` (minimum two
fields). -/
def AtcDeregisterMessage.tryFrom (fields : List String) : PRes AtcDeregisterMessage := do
  checkMin fields 2
  let f₀ ← idx fields 0
  let first := strDrop f₀ 3
  let f₁ ← idx fields 1
  pure (AtcDeregisterMessage.new first f₁)

/-- Embedding of `messages::PilotDeregisterMessage`. -/
structure PilotDeregisterMessage : Type where
  «from» : String
  cid : String
deriving DecidableEq

/-- Embedding of `PilotDeregisterMessage::new`. -/
def PilotDeregisterMessage.new (from_ cid : String) : PilotDeregisterMessage :=
  ⟨rustToUppercase from_, cid⟩

/-- Embedding of `TryFrom<&[&str]> for PilotDeregisterMessage`. -/
def PilotDeregisterMessage.tryFrom (fields : List String) : PRes PilotDeregisterMessage := do
  checkMin fields 2
  let f₀ ← idx fields 0
  let first := strDrop f₀ 3
  let f₁ ← idx fields 1
  pure (PilotDeregisterMessage.new first f₁)

/-- Embedding of `messages::AtcPositionUpdateMessage` (`f64` coordinates are
modelled as exact rationals). -/
structure AtcPositionUpdateMessage : Type where
  callsign : String
  frequencies : List RadioFrequency
  atc_type : AtcType
  vis_range : Nat
  rating : AtcRating
  latitude : ℚ
  longitude : ℚ
  elevation : Int
deriving DecidableEq

/-- Embedding of `AtcPositionUpdateMessage::new`. -/
def AtcPositionUpdateMessage.new (callsign : String) (frequencies : List RadioFrequency)
    (atc_type : AtcType) (vis_range : Nat) (rating : AtcRating)
    (latitude longitude : ℚ) (elevation : Int) : AtcPositionUpdateMessage :=
  ⟨rustToUppercase callsign, frequencies, atc_type, vis_range, rating,
    latitude, longitude, elevation⟩

/-- Embedding of `TryFrom<&[&str]> for AtcPositionUpdateMessage`. -/
def AtcPositionUpdateMessage.tryFrom (fields : List String) : PRes AtcPositionUpdateMessage := do
  checkMin fields 7
  let f₀ ← idx fields 0
  let first := strDrop f₀ 1
  let f₁ ← idx fields 1
  let f₂ ← idx fields 2
  let atc_type ← liftE (AtcType.fromStr f₂)
  let f₃ ← idx fields 3
  let vis_range ← okOr (rustParseU32 f₃) (.InvalidVisRange f₃)
  let f₄ ← idx fields 4
  let rating ← liftE (AtcRating.fromStr f₄)
  let f₅ ← idx fields 5
  let latitude ← okOr (rustParseF64 f₅) (.InvalidCoordinate f₅)
  let f₆ ← idx fields 6
  let longitude ← okOr (rustParseF64 f₆) (.InvalidCoordinate f₆)
  let elevation := (rustParseI32 ((getOpt fields 7).getD "0")).getD 0
  pure (AtcPositionUpdateMessage.new first (split_frequencies f₁) atc_type vis_range
    rating latitude longitude elevation)

/-- Embedding of `messages::AtcSecondaryVisCentreMessage`. -/
structure AtcSecondaryVisCentreMessage : Type where
  callsign : String
  index : Nat
  latitude : ℚ
  longitude : ℚ
deriving DecidableEq

/-- Embedding of `AtcSecondaryVisCentreMessage::new`. -/
def AtcSecondaryVisCentreMessage.new (callsign : String) (index : Nat)
    (latitude longitude : ℚ) : AtcSecondaryVisCentreMessage :=
  ⟨rustToUppercase callsign, index, latitude, longitude⟩

/-- Embedding of `TryFrom<&[&str]> for AtcSecondaryVisCentreMessage` (the
source's coordinate error arms cite `fields[5]`, an index past the checked
minimum of four — faithful here via `idx`). -/
def AtcSecondaryVisCentreMessage.tryFrom (fields : List String) :
    PRes AtcSecondaryVisCentreMessage := do
  checkMin fields 4
  let f₀ ← idx fields 0
  let first := strDrop f₀ 1
  let f₁ ← idx fields 1
  let index ← okOr (rustParseUsize f₁) (.InvalidIndex f₁)
  let f₂ ← idx fields 2
  let latitude ← match rustParseF64 f₂ with
    | some v => pure v
    | none => do
      let f₅ ← idx fields 5
      PRes.err (.InvalidCoordinate f₅)
  let f₃ ← idx fields 3
  let longitude ← match rustParseF64 f₃ with
    | some v => pure v
    | none => do
      let f₅ ← idx fields 5
      PRes.err (.InvalidCoordinate f₅)
  pure (AtcSecondaryVisCentreMessage.new first index latitude longitude)

/-- Embedding of `messages::PilotPositionUpdateMessage`. -/
structure PilotPositionUpdateMessage : Type where
  callsign : String
  transponder_mode : TransponderMode
  transponder_code : TransponderCode
  rating : PilotRating
  latitude : ℚ
  longitude : ℚ
  true_altitude : ℚ
  pressure_altitude : ℚ
  ground_speed : Nat
  pitch : ℚ
  bank : ℚ
  heading : ℚ
  on_ground : Bool
deriving DecidableEq

/-- Embedding of `PilotPositionUpdateMessage::new`. -/
def PilotPositionUpdateMessage.new (callsign : String) (transponder_mode : TransponderMode)
    (transponder_code : TransponderCode) (rating : PilotRating)
    (latitude longitude true_altitude pressure_altitude : ℚ) (ground_speed : Nat)
    (pitch bank heading : ℚ) (on_ground : Bool) : PilotPositionUpdateMessage :=
  ⟨rustToUppercase callsign, transponder_mode, transponder_code, rating, latitude,
    longitude, true_altitude, pressure_altitude, ground_speed, pitch, bank, heading,
    on_ground⟩

/-- Embedding of `TryFrom<&[&str]> for PilotPositionUpdateMessage` (the
orientation field is the packed PBH integer, decoded on parse). -/
def PilotPositionUpdateMessage.tryFrom (fields : List String) :
    PRes PilotPositionUpdateMessage := do
  checkMin fields 10
  let f₀ ← idx fields 0
  let first := strDrop f₀ 1
  let f₆ ← idx fields 6
  let true_altitude ← okOr (rustParseF64 f₆) (.InvalidAltitude f₆)
  let f₉ ← idx fields 9
  let alt_diff ← okOr (rustParseF64 f₉) (.InvalidAltitudeDifference f₉)
  let f₈ ← idx fields 8
  let pbh ← okOr (rustParseU32 f₈) (.InvalidPitchBankHeading f₈)
  let decoded := decode_pitch_bank_heading pbh
  let f₁ ← idx fields 1
  let transponder_mode ← liftE (TransponderMode.fromStr first)
  let f₂ ← idx fields 2
  let transponder_code ← liftE (TransponderCode.fromStr f₂)
  let f₃ ← idx fields 3
  let rating ← liftE (PilotRating.fromStr f₃)
  let f₄ ← idx fields 4
  let latitude ← okOr (rustParseF64 f₄) (.InvalidCoordinate f₄)
  let f₅ ← idx fields 5
  let longitude ← okOr (rustParseF64 f₅) (.InvalidCoordinate f₅)
  let f₇ ← idx fields 7
  let ground_speed ← okOr (rustParseU32 f₇) (.InvalidSpeed f₇)
  pure (PilotPositionUpdateMessage.new f₁ transponder_mode transponder_code rating
    latitude longitude true_altitude (true_altitude + alt_diff) ground_speed
    decoded.1 decoded.2.1 decoded.2.2.1 decoded.2.2.2)

/-! ## messages.rs: handshakes, text, server control -/

/-- Embedding of `messages::AuthenticationChallengeMessage`. -/
structure AuthenticationChallengeMessage : Type where
  «from» : String
  «to» : String
  challenge : String
deriving DecidableEq

/-- Embedding of `AuthenticationChallengeMessage::new`. -/
def AuthenticationChallengeMessage.new (from_ to_ challenge : String) :
    AuthenticationChallengeMessage :=
  ⟨rustToUppercase from_, rustToUppercase to_, challenge⟩

/-- Embedding of `TryFrom<&[&str]> for AuthenticationChallengeMessage`. -/
def AuthenticationChallengeMessage.tryFrom (fields : List String) :
    PRes AuthenticationChallengeMessage := do
  checkMin fields 3
  let f₀ ← idx fields 0
  let f₁ ← idx fields 1
  let f₂ ← idx fields 2
  pure (AuthenticationChallengeMessage.new (strDrop f₀ 3) f₁ f₂)

/-- Embedding of `messages::AuthenticationResponseMessage`. -/
structure AuthenticationResponseMessage : Type where
  «from» : String
  «to» : String
  response : String
deriving DecidableEq

/-- Embedding of `AuthenticationResponseMessage::new`. -/
def AuthenticationResponseMessage.new (from_ to_ response : String) :
    AuthenticationResponseMessage :=
  ⟨rustToUppercase from_, rustToUppercase to_, response⟩

/-- Embedding of `TryFrom<&[&str]> for AuthenticationResponseMessage`. -/
def AuthenticationResponseMessage.tryFrom (fields : List String) :
    PRes AuthenticationResponseMessage := do
  checkMin fields 3
  let f₀ ← idx fields 0
  let f₁ ← idx fields 1
  let f₂ ← idx fields 2
  pure (AuthenticationResponseMessage.new (strDrop f₀ 3) f₁ f₂)

/-- Embedding of `messages::TextMessage`. -/
structure TextMessage : Type where
  «from» : String
  «to» : String
  message : String
deriving DecidableEq

/-- Embedding of `TextMessage::new` (callsigns uppercased; the message body
is stored verbatim). -/
def TextMessage.new (from_ to_ message : String) : TextMessage :=
  ⟨rustToUppercase from_, rustToUppercase to_, message⟩

/-- Embedding of `TryFrom<&[&str]> for TextMessage` (fields three onward are
re-joined with colons: the body may itself contain colons). -/
def TextMessage.tryFrom (fields : List String) : PRes TextMessage := do
  checkMin fields 3
  let f₀ ← idx fields 0
  let first := strDrop f₀ 3
  let f₂ ← idx fields 2
  let message := assemble_with_colons (f₂ :: fields.drop 3)
  let f₁ ← idx fields 1
  pure (TextMessage.new first f₁ message)

/-- Embedding of `messages::FrequencyMessage`. -/
structure FrequencyMessage : Type where
  «from» : String
  «to» : List RadioFrequency
  message : String
deriving DecidableEq

/-- Embedding of `FrequencyMessage::new`. -/
def FrequencyMessage.new (from_ : String) (to_ : List RadioFrequency) (message : String) :
    FrequencyMessage :=
  ⟨rustToUppercase from_, to_, message⟩

/-- Embedding of `TryFrom<&[&str]> for FrequencyMessage`. -/
def FrequencyMessage.tryFrom (fields : List String) : PRes FrequencyMessage := do
  checkMin fields 3
  let f₀ ← idx fields 0
  let first := strDrop f₀ 3
  let f₂ ← idx fields 2
  let message := assemble_with_colons (f₂ :: fields.drop 3)
  let f₁ ← idx fields 1
  pure (FrequencyMessage.new first (split_frequencies f₁) message)

/-- Embedding of `messages::ChangeServerMessage`. -/
structure ChangeServerMessage : Type where
  «from» : String
  «to» : String
  hostname : String
deriving DecidableEq

/-- Embedding of `ChangeServerMessage::new`. -/
def ChangeServerMessage.new (from_ to_ hostname : String) : ChangeServerMessage :=
  ⟨rustToUppercase from_, rustToUppercase to_, hostname⟩

/-- Embedding of `TryFrom<&[&str]> for ChangeServerMessage`. -/
def ChangeServerMessage.tryFrom (fields : List String) : PRes ChangeServerMessage := do
  checkMin fields 3
  let f₀ ← idx fields 0
  let f₁ ← idx fields 1
  let f₂ ← idx fields 2
  pure (ChangeServerMessage.new (strDrop f₀ 3) f₁ f₂)

/-- Embedding of `messages::InitialServerHandshakeMessage`. -/
structure InitialServerHandshakeMessage : Type where
  «from» : String
  «to» : String
  version : String
  initial_key : String
deriving DecidableEq

/-- Embedding of `InitialServerHandshakeMessage::new`. -/
def InitialServerHandshakeMessage.new (from_ to_ version initial_key : String) :
    InitialServerHandshakeMessage :=
  ⟨rustToUppercase from_, rustToUppercase to_, version, initial_key⟩

/-- Embedding of `TryFrom<&[&str]> for InitialServerHandshakeMessage`: the
source checks a minimum of three fields and then reads `fields[3]`, a
panicking index on a three-field list. -/
def InitialServerHandshakeMessage.tryFrom (fields : List String) :
    PRes InitialServerHandshakeMessage := do
  checkMin fields 3
  let f₀ ← idx fields 0
  let first := strDrop f₀ 3
  let f₁ ← idx fields 1
  let f₂ ← idx fields 2
  let f₃ ← idx fields 3
  pure (InitialServerHandshakeMessage.new first f₁ f₂ f₃)

/-- Embedding of `messages::InitialClientHandshakeMessage`. -/
structure InitialClientHandshakeMessage : Type where
  «from» : String
  «to» : String
  client_id : Nat
  client_name : String
  major_version : Nat
  minor_version : Nat
  cid : String
  guid : String
  initial_key : Option String
deriving DecidableEq

/-- Embedding of `InitialClientHandshakeMessage::new`. -/
def InitialClientHandshakeMessage.new (from_ to_ : String) (client_id : Nat)
    (client_name : String) (major_version minor_version : Nat) (cid guid : String)
    (initial_key : Option String) : InitialClientHandshakeMessage :=
  ⟨rustToUppercase from_, rustToUppercase to_, client_id, client_name, major_version,
    minor_version, cid, guid, initial_key⟩

/-- Embedding of `TryFrom<&[&str]> for InitialClientHandshakeMessage`. -/
def InitialClientHandshakeMessage.tryFrom (fields : List String) :
    PRes InitialClientHandshakeMessage := do
  checkMin fields 8
  let f₀ ← idx fields 0
  let first := strDrop f₀ 3
  let f₁ ← idx fields 1
  let f₂ ← idx fields 2
  let client_id ← okOr (rustParseHexU16 f₂) (.InvalidClientID f₂)
  let f₃ ← idx fields 3
  let f₄ ← idx fields 4
  let major_version ← okOr (rustParseU32 f₄) (.InvalidVersionNumber f₄)
  let f₅ ← idx fields 5
  let minor_version ← okOr (rustParseU32 f₅) (.InvalidVersionNumber f₅)
  let f₆ ← idx fields 6
  let f₇ ← idx fields 7
  pure (InitialClientHandshakeMessage.new first f₁ client_id f₃ major_version
    minor_version f₆ f₇ (getOpt fields 8))

/-- Embedding of `messages::SendFastPositionUpdatesMessage`. -/
structure SendFastPositionUpdatesMessage : Type where
  «from» : String
  «to» : String
  send_fast : Bool
deriving DecidableEq

/-- Embedding of `SendFastPositionUpdatesMessage::new`. -/
def SendFastPositionUpdatesMessage.new (from_ to_ : String) (send_fast : Bool) :
    SendFastPositionUpdatesMessage :=
  ⟨rustToUppercase from_, rustToUppercase to_, send_fast⟩

/-- Embedding of `TryFrom<&[&str]> for SendFastPositionUpdatesMessage`. -/
def SendFastPositionUpdatesMessage.tryFrom (fields : List String) :
    PRes SendFastPositionUpdatesMessage := do
  checkMin fields 3
  let f₀ ← idx fields 0
  let f₁ ← idx fields 1
  let f₂ ← idx fields 2
  pure (SendFastPositionUpdatesMessage.new (strDrop f₀ 3) f₁ (f₂ = "1"))

/-! ## messages.rs: velocity position updates -/

/-- Embedding of `messages::VelocityPositionStoppedMessage`. -/
structure VelocityPositionStoppedMessage : Type where
  «from» : String
  latitude : ℚ
  longitude : ℚ
  true_altitude : ℚ
  altitude_agl : ℚ
  pitch : ℚ
  bank : ℚ
  heading : ℚ
  on_ground : Bool
  nose_gear_angle : Option ℚ
deriving DecidableEq

/-- Embedding of `VelocityPositionStoppedMessage::new`. -/
def VelocityPositionStoppedMessage.new (from_ : String)
    (latitude longitude true_altitude altitude_agl pitch bank heading : ℚ)
    (on_ground : Bool) (nose_gear_angle : Option ℚ) : VelocityPositionStoppedMessage :=
  ⟨rustToUppercase from_, latitude, longitude, true_altitude, altitude_agl, pitch,
    bank, heading, on_ground, nose_gear_angle⟩

/-- Embedding of `TryFrom<&[&str]> for VelocityPositionStoppedMessage`. -/
def VelocityPositionStoppedMessage.tryFrom (fields : List String) :
    PRes VelocityPositionStoppedMessage := do
  checkMin fields 6
  let f₀ ← idx fields 0
  let first := strDrop f₀ 3
  let f₅ ← idx fields 5
  let pbh ← okOr (rustParseU32 f₅) (.InvalidPitchBankHeading f₅)
  let decoded := decode_pitch_bank_heading pbh
  let nga ← match getOpt fields 6 with
    | some nga =>
      match rustParseF64 nga with
      | some v => pure (some v)
      | none => do
        let f₆ ← idx fields 6
        PRes.err (.InvalidNosewheelAngle f₆)
    | none => pure none
  let f₁ ← idx fields 1
  let latitude ← okOr (rustParseF64 f₁) (.InvalidCoordinate f₁)
  let f₂ ← idx fields 2
  let longitude ← okOr (rustParseF64 f₂) (.InvalidCoordinate f₂)
  let f₃ ← idx fields 3
  let true_altitude ← okOr (rustParseF64 f₃) (.InvalidAltitude f₃)
  let f₄ ← idx fields 4
  let altitude_agl ← okOr (rustParseF64 f₄) (.InvalidAltitude f₄)
  pure (VelocityPositionStoppedMessage.new first latitude longitude true_altitude
    altitude_agl decoded.1 decoded.2.1 decoded.2.2.1 decoded.2.2.2 nga)

/-- Embedding of `messages::VelocityPositionSlowMessage`. -/
structure VelocityPositionSlowMessage : Type where
  «from» : String
  latitude : ℚ
  longitude : ℚ
  true_altitude : ℚ
  altitude_agl : ℚ
  pitch : ℚ
  bank : ℚ
  heading : ℚ
  on_ground : Bool
  x_velocity : ℚ
  y_velocity : ℚ
  z_velocity : ℚ
  pitch_rad_per_sec : ℚ
  heading_rad_per_sec : ℚ
  bank_rad_per_sec : ℚ
  nose_gear_angle : Option ℚ
deriving DecidableEq

/-- Embedding of `VelocityPositionSlowMessage::new`. -/
def VelocityPositionSlowMessage.new (from_ : String)
    (latitude longitude true_altitude altitude_agl pitch bank heading : ℚ)
    (on_ground : Bool) (x_velocity y_velocity z_velocity : ℚ)
    (pitch_rad_per_sec heading_rad_per_sec bank_rad_per_sec : ℚ)
    (nose_gear_angle : Option ℚ) : VelocityPositionSlowMessage :=
  ⟨rustToUppercase from_, latitude, longitude, true_altitude, altitude_agl, pitch,
    bank, heading, on_ground, x_velocity, y_velocity, z_velocity, pitch_rad_per_sec,
    heading_rad_per_sec, bank_rad_per_sec, nose_gear_angle⟩

/-- Embedding of `TryFrom<&[&str]> for VelocityPositionSlowMessage`. -/
def VelocityPositionSlowMessage.tryFrom (fields : List String) :
    PRes VelocityPositionSlowMessage := do
  checkMin fields 12
  let f₀ ← idx fields 0
  let first := strDrop f₀ 3
  let f₅ ← idx fields 5
  let pbh ← okOr (rustParseU32 f₅) (.InvalidPitchBankHeading f₅)
  let decoded := decode_pitch_bank_heading pbh
  let nga ← match getOpt fields 12 with
    | some nga =>
      match rustParseF64 nga with
      | some v => pure (some v)
      | none => do
        let f₁₂ ← idx fields 12
        PRes.err (.InvalidNosewheelAngle f₁₂)
    | none => pure none
  let f₁ ← idx fields 1
  let latitude ← okOr (rustParseF64 f₁) (.InvalidCoordinate f₁)
  let f₂ ← idx fields 2
  let longitude ← okOr (rustParseF64 f₂) (.InvalidCoordinate f₂)
  let f₃ ← idx fields 3
  let true_altitude ← okOr (rustParseF64 f₃) (.InvalidAltitude f₃)
  let f₄ ← idx fields 4
  let altitude_agl ← okOr (rustParseF64 f₄) (.InvalidAltitude f₄)
  let f₆ ← idx fields 6
  let xv ← okOr (rustParseF64 f₆) (.InvalidPositionVelocity f₆)
  let f₇ ← idx fields 7
  let yv ← okOr (rustParseF64 f₇) (.InvalidPositionVelocity f₇)
  let f₈ ← idx fields 8
  let zv ← okOr (rustParseF64 f₈) (.InvalidPositionVelocity f₈)
  let f₉ ← idx fields 9
  let pr ← okOr (rustParseF64 f₉) (.InvalidPositionVelocity f₉)
  let f₁₀ ← idx fields 10
  let hr ← okOr (rustParseF64 f₁₀) (.InvalidPositionVelocity f₁₀)
  let f₁₁ ← idx fields 11
  let br ← okOr (rustParseF64 f₁₁) (.InvalidPositionVelocity f₁₁)
  pure (VelocityPositionSlowMessage.new first latitude longitude true_altitude
    altitude_agl decoded.1 decoded.2.1 decoded.2.2.1 decoded.2.2.2 xv yv zv pr hr br nga)

/-- Embedding of `messages::VelocityPositionFastMessage`. -/
structure VelocityPositionFastMessage : Type where
  «from» : String
  latitude : ℚ
  longitude : ℚ
  true_altitude : ℚ
  altitude_agl : ℚ
  pitch : ℚ
  bank : ℚ
  heading : ℚ
  on_ground : Bool
  x_velocity : ℚ
  y_velocity : ℚ
  z_velocity : ℚ
  pitch_rad_per_sec : ℚ
  heading_rad_per_sec : ℚ
  bank_rad_per_sec : ℚ
  nose_gear_angle : Option ℚ
deriving DecidableEq

/-- Embedding of `VelocityPositionFastMessage::new`. -/
def VelocityPositionFastMessage.new (from_ : String)
    (latitude longitude true_altitude altitude_agl pitch bank heading : ℚ)
    (on_ground : Bool) (x_velocity y_velocity z_velocity : ℚ)
    (pitch_rad_per_sec heading_rad_per_sec bank_rad_per_sec : ℚ)
    (nose_gear_angle : Option ℚ) : VelocityPositionFastMessage :=
  ⟨rustToUppercase from_, latitude, longitude, true_altitude, altitude_agl, pitch,
    bank, heading, on_ground, x_velocity, y_velocity, z_velocity, pitch_rad_per_sec,
    heading_rad_per_sec, bank_rad_per_sec, nose_gear_angle⟩

/-- Embedding of `TryFrom<&[&str]> for VelocityPositionFastMessage` (the
prefix is the single character `^`, hence the one-byte strip). -/
def VelocityPositionFastMessage.tryFrom (fields : List String) :
    PRes VelocityPositionFastMessage := do
  checkMin fields 12
  let f₀ ← idx fields 0
  let first := strDrop f₀ 1
  let f₅ ← idx fields 5
  let pbh ← okOr (rustParseU32 f₅) (.InvalidPitchBankHeading f₅)
  let decoded := decode_pitch_bank_heading pbh
  let nga ← match getOpt fields 12 with
    | some nga =>
      match rustParseF64 nga with
      | some v => pure (some v)
      | none => do
        let f₁₂ ← idx fields 12
        PRes.err (.InvalidNosewheelAngle f₁₂)
    | none => pure none
  let f₁ ← idx fields 1
  let latitude ← okOr (rustParseF64 f₁) (.InvalidCoordinate f₁)
  let f₂ ← idx fields 2
  let longitude ← okOr (rustParseF64 f₂) (.InvalidCoordinate f₂)
  let f₃ ← idx fields 3
  let true_altitude ← okOr (rustParseF64 f₃) (.InvalidAltitude f₃)
  let f₄ ← idx fields 4
  let altitude_agl ← okOr (rustParseF64 f₄) (.InvalidAltitude f₄)
  let f₆ ← idx fields 6
  let xv ← okOr (rustParseF64 f₆) (.InvalidPositionVelocity f₆)
  let f₇ ← idx fields 7
  let yv ← okOr (rustParseF64 f₇) (.InvalidPositionVelocity f₇)
  let f₈ ← idx fields 8
  let zv ← okOr (rustParseF64 f₈) (.InvalidPositionVelocity f₈)
  let f₉ ← idx fields 9
  let pr ← okOr (rustParseF64 f₉) (.InvalidPositionVelocity f₉)
  let f₁₀ ← idx fields 10
  let hr ← okOr (rustParseF64 f₁₀) (.InvalidPositionVelocity f₁₀)
  let f₁₁ ← idx fields 11
  let br ← okOr (rustParseF64 f₁₁) (.InvalidPositionVelocity f₁₁)
  pure (VelocityPositionFastMessage.new first latitude longitude true_altitude
    altitude_agl decoded.1 decoded.2.1 decoded.2.2.1 decoded.2.2.2 xv yv zv pr hr br nga)

/-! ## messages.rs: kill, METAR, ping and pong -/

/-- Embedding of `messages::KillMessage`. -/
structure KillMessage : Type where
  «from» : String
  «to» : String
  reason : Option String
deriving DecidableEq

/-- Embedding of `KillMessage::new`. -/
def KillMessage.new (from_ to_ : String) (reason : Option String) : KillMessage :=
  ⟨rustToUppercase from_, rustToUppercase to_, reason⟩

/-- Embedding of `TryFrom<&[&str]> for KillMessage`. -/
def KillMessage.tryFrom (fields : List String) : PRes KillMessage := do
  checkMin fields 2
  let f₀ ← idx fields 0
  let f₁ ← idx fields 1
  pure (KillMessage.new (strDrop f₀ 3) f₁ (getOpt fields 2))

/-- Embedding of `messages::MetarRequestMessage`. -/
structure MetarRequestMessage : Type where
  «from» : String
  «to» : String
  station : String
deriving DecidableEq

/-- Embedding of `MetarRequestMessage::new` (the station is uppercased). -/
def MetarRequestMessage.new (from_ to_ station : String) : MetarRequestMessage :=
  ⟨rustToUppercase from_, rustToUppercase to_, rustToUppercase station⟩

/-- Embedding of `TryFrom<&[&str]> for MetarRequestMessage` (field two, the
literal `METAR` marker, is skipped). -/
def MetarRequestMessage.tryFrom (fields : List String) : PRes MetarRequestMessage := do
  checkMin fields 4
  let f₀ ← idx fields 0
  let f₁ ← idx fields 1
  let f₃ ← idx fields 3
  pure (MetarRequestMessage.new (strDrop f₀ 3) f₁ f₃)

/-- Embedding of `messages::MetarResponseMessage`. -/
structure MetarResponseMessage : Type where
  «from» : String
  «to» : String
  metar : String
deriving DecidableEq

/-- Embedding of `MetarResponseMessage::new` (the METAR text is uppercased). -/
def MetarResponseMessage.new (from_ to_ metar : String) : MetarResponseMessage :=
  ⟨rustToUppercase from_, rustToUppercase to_, rustToUppercase metar⟩

/-- Embedding of `TryFrom<&[&str]> for MetarResponseMessage`. -/
def MetarResponseMessage.tryFrom (fields : List String) : PRes MetarResponseMessage := do
  checkMin fields 4
  let f₀ ← idx fields 0
  let f₁ ← idx fields 1
  let f₃ ← idx fields 3
  pure (MetarResponseMessage.new (strDrop f₀ 3) f₁ f₃)

/-- Embedding of `messages::PingMessage`. -/
structure PingMessage : Type where
  «from» : String
  «to» : String
  timestamp : Nat
deriving DecidableEq

/-- Embedding of `PingMessage::new`. -/
def PingMessage.new (from_ to_ : String) (timestamp : Nat) : PingMessage :=
  ⟨rustToUppercase from_, rustToUppercase to_, timestamp⟩

/-- Embedding of `TryFrom<&[&str]> for PingMessage`. -/
def PingMessage.tryFrom (fields : List String) : PRes PingMessage := do
  checkMin fields 3
  let f₀ ← idx fields 0
  let f₁ ← idx fields 1
  let f₂ ← idx fields 2
  let timestamp ← okOr (rustParseU64 f₂) (.InvalidPingTime f₂)
  pure (PingMessage.new (strDrop f₀ 3) f₁ timestamp)

/-- Embedding of `messages::PongMessage`. -/
structure PongMessage : Type where
  «from» : String
  «to» : String
  timestamp : Nat
deriving DecidableEq

/-- Embedding of `PongMessage::new`. -/
def PongMessage.new (from_ to_ : String) (timestamp : Nat) : PongMessage :=
  ⟨rustToUppercase from_, rustToUppercase to_, timestamp⟩

/-- Embedding of `TryFrom<&[&str]> for PongMessage`. -/
def PongMessage.tryFrom (fields : List String) : PRes PongMessage := do
  checkMin fields 3
  let f₀ ← idx fields 0
  let f₁ ← idx fields 1
  let f₂ ← idx fields 2
  let timestamp ← okOr (rustParseU64 f₂) (.InvalidPingTime f₂)
  pure (PongMessage.new (strDrop f₀ 3) f₁ timestamp)

/-! ## messages.rs: plane info, errors, flight plans -/

/-- Embedding of `messages::PlaneInfoRequestMessage`. -/
structure PlaneInfoRequestMessage : Type where
  «from» : String
  «to» : String
deriving DecidableEq

/-- Embedding of `PlaneInfoRequestMessage::new`.  Unlike every other record
constructor in `messages.rs`, this one stores both callsigns verbatim
(`as_ref().into()`), with no `to_uppercase()` call. -/
def PlaneInfoRequestMessage.new (from_ to_ : String) : PlaneInfoRequestMessage :=
  ⟨from_, to_⟩

/-- Embedding of `TryFrom<&[&str]> for PlaneInfoRequestMessage`. -/
def PlaneInfoRequestMessage.tryFrom (fields : List String) : PRes PlaneInfoRequestMessage := do
  checkMin fields 3
  let f₀ ← idx fields 0
  let f₁ ← idx fields 1
  pure (PlaneInfoRequestMessage.new (strDrop f₀ 3) f₁)

/-- Embedding of `Display for PlaneInfoRequestMessage`. -/
def PlaneInfoRequestMessage.display (m : PlaneInfoRequestMessage) : String :=
  "#SB" ++ m.«from» ++ ":" ++ m.«to» ++ ":PIR"

/-- Embedding of `messages::PlaneInfoResponseMessage`. -/
structure PlaneInfoResponseMessage : Type where
  «from» : String
  «to» : String
  plane_info : PlaneInfo
deriving DecidableEq

/-- Embedding of `PlaneInfoResponseMessage::new` (this one does uppercase). -/
def PlaneInfoResponseMessage.new (from_ to_ : String) (plane_info : PlaneInfo) :
    PlaneInfoResponseMessage :=
  ⟨rustToUppercase from_, rustToUppercase to_, plane_info⟩

/-- Embedding of `TryFrom<&[&str]> for PlaneInfoResponseMessage` (the
key/value payload starts at field four). -/
def PlaneInfoResponseMessage.tryFrom (fields : List String) : PRes PlaneInfoResponseMessage := do
  checkMin fields 5
  let f₀ ← idx fields 0
  let f₁ ← idx fields 1
  pure (PlaneInfoResponseMessage.new (strDrop f₀ 3) f₁ (PlaneInfo.fromFields (fields.drop 4)))

/-- Embedding of `messages::FsdErrorMessage`. -/
structure FsdErrorMessage : Type where
  «from» : String
  «to» : String
  error_type : FsdError
deriving DecidableEq

/-- Embedding of `FsdErrorMessage::new`. -/
def FsdErrorMessage.new (from_ to_ : String) (error_type : FsdError) : FsdErrorMessage :=
  ⟨rustToUppercase from_, rustToUppercase to_, error_type⟩

/-- Embedding of `TryFrom<&[&str]> for FsdErrorMessage`: the numeric code in
field two selects the `FsdError` variant (anything above seventeen becomes
`Other` carrying field four). -/
def FsdErrorMessage.tryFrom (fields : List String) : PRes FsdErrorMessage := do
  checkMin fields 5
  let f₀ ← idx fields 0
  let first := strDrop f₀ 3
  let f₂ ← idx fields 2
  let code ← okOr (rustParseU8 f₂) (.InvalidServerError f₂)
  let error_type ← match code with
    | 1 => pure FsdError.CallsignInUse
    | 2 => pure FsdError.InvalidCallsign
    | 3 => pure FsdError.AlreadyRegistered
    | 4 => pure FsdError.SyntaxError
    | 5 => pure FsdError.InvalidCallsign
    | 6 => pure FsdError.InvalidCidPassword
    | 7 => do
      let f₃ ← idx fields 3
      pure (FsdError.NoSuchCallsign (rustToUppercase f₃))
    | 8 => do
      let f₃ ← idx fields 3
      pure (FsdError.NoFlightPlan (rustToUppercase f₃))
    | 9 => do
      let f₃ ← idx fields 3
      pure (FsdError.NoWeatherProfile (rustToUppercase f₃))
    | 10 => pure FsdError.InvalidProtocolRevision
    | 11 => pure FsdError.RequestedLevelTooHigh
    | 12 => pure FsdError.ServerFull
    | 13 => pure FsdError.CertificateSuspended
    | 14 => pure FsdError.InvalidControl
    | 15 => pure FsdError.InvalidPositionForRating
    | 16 => pure FsdError.UnauthorisedClient
    | 17 => pure FsdError.AuthTimeOut
    | _ => do
      let f₄ ← idx fields 4
      pure (FsdError.Other f₄)
  let f₁ ← idx fields 1
  pure (FsdErrorMessage.new first f₁ error_type)

/-- Embedding of `Display for FsdErrorMessage` (`{:03}` code, two colons,
then the free text only for the `Other` variant). -/
def FsdErrorMessage.display (m : FsdErrorMessage) : String :=
  match m.error_type with
  | .Other message =>
    "$ER" ++ m.«from» ++ ":" ++ m.«to» ++ ":" ++ fmtPad 3 m.error_type.error_number ++
      "::" ++ message
  | _ =>
    "$ER" ++ m.«from» ++ ":" ++ m.«to» ++ ":" ++ fmtPad 3 m.error_type.error_number ++ "::"

/-- Embedding of `messages::FlightPlanMessage`. -/
structure FlightPlanMessage : Type where
  «to» : String
  callsign : String
  flight_plan : FlightPlan
deriving DecidableEq

/-- Embedding of `FlightPlanMessage::new`. -/
def FlightPlanMessage.new (to_ callsign : String) (flight_plan : FlightPlan) :
    FlightPlanMessage :=
  ⟨rustToUppercase to_, rustToUppercase callsign, flight_plan⟩

/-- Embedding of `TryFrom<&[&str]> for FlightPlanMessage` (exactly seventeen
fields; the fifteen-field flight-plan tail starts at field two). -/
def FlightPlanMessage.tryFrom (fields : List String) : PRes FlightPlanMessage := do
  checkExact fields 17
  let f₀ ← idx fields 0
  let first := strDrop f₀ 3
  let f₁ ← idx fields 1
  let flight_plan ← FlightPlan.tryFrom (fields.drop 2)
  pure (FlightPlanMessage.new f₁ first flight_plan)

/-- Embedding of `messages::FlightPlanAmendmentMessage`. -/
structure FlightPlanAmendmentMessage : Type where
  «from» : String
  «to» : String
  callsign : String
  flight_plan : FlightPlan
deriving DecidableEq

/-- Embedding of `FlightPlanAmendmentMessage::new`. -/
def FlightPlanAmendmentMessage.new (from_ to_ callsign : String) (flight_plan : FlightPlan) :
    FlightPlanAmendmentMessage :=
  ⟨rustToUppercase from_, rustToUppercase to_, rustToUppercase callsign, flight_plan⟩

/-- Embedding of `TryFrom<&[&str]> for FlightPlanAmendmentMessage`. -/
def FlightPlanAmendmentMessage.tryFrom (fields : List String) : PRes FlightPlanAmendmentMessage := do
  checkExact fields 18
  let f₀ ← idx fields 0
  let first := strDrop f₀ 3
  let f₁ ← idx fields 1
  let f₂ ← idx fields 2
  let flight_plan ← FlightPlan.tryFrom (fields.drop 3)
  pure (FlightPlanAmendmentMessage.new first f₁ f₂ flight_plan)

/-! ## messages.rs: handoffs -/

/-- Embedding of `messages::HandoffOfferMessage`. -/
structure HandoffOfferMessage : Type where
  «from» : String
  «to» : String
  aircraft : String
deriving DecidableEq

/-- Embedding of `HandoffOfferMessage::new`. -/
def HandoffOfferMessage.new (from_ to_ aircraft : String) : HandoffOfferMessage :=
  ⟨rustToUppercase from_, rustToUppercase to_, rustToUppercase aircraft⟩

/-- Embedding of `TryFrom<&[&str]> for HandoffOfferMessage`. -/
def HandoffOfferMessage.tryFrom (fields : List String) : PRes HandoffOfferMessage := do
  checkMin fields 3
  let f₀ ← idx fields 0
  let f₁ ← idx fields 1
  let f₂ ← idx fields 2
  pure (HandoffOfferMessage.new (strDrop f₀ 3) f₁ f₂)

/-- Embedding of `messages::HandoffAcceptMessage`. -/
structure HandoffAcceptMessage : Type where
  «from» : String
  «to» : String
  aircraft : String
deriving DecidableEq

/-- Embedding of `HandoffAcceptMessage::new`. -/
def HandoffAcceptMessage.new (from_ to_ aircraft : String) : HandoffAcceptMessage :=
  ⟨rustToUppercase from_, rustToUppercase to_, rustToUppercase aircraft⟩

/-- Embedding of `TryFrom<&[&str]> for HandoffAcceptMessage`. -/
def HandoffAcceptMessage.tryFrom (fields : List String) : PRes HandoffAcceptMessage := do
  checkMin fields 3
  let f₀ ← idx fields 0
  let f₁ ← idx fields 1
  let f₂ ← idx fields 2
  pure (HandoffAcceptMessage.new (strDrop f₀ 3) f₁ f₂)

/-! ## messages.rs: client query envelope -/

/-- Embedding of `messages::ClientQueryMessage`. -/
structure ClientQueryMessage : Type where
  «from» : String
  «to» : String
  query_type : ClientQueryType
deriving DecidableEq

/-- Embedding of `ClientQueryMessage::new` (callsigns uppercased). -/
def ClientQueryMessage.new (from_ to_ : String) (query_type : ClientQueryType) :
    ClientQueryMessage :=
  ⟨rustToUppercase from_, rustToUppercase to_, query_type⟩

/-- Embedding of `Display for ClientQueryMessage`. -/
def ClientQueryMessage.display (m : ClientQueryMessage) : String :=
  "$CQ" ++ m.«from» ++ ":" ++ m.«to» ++ ":" ++ m.query_type.display

/-- Embedding of `TryFrom<&[&str]> for ClientQueryMessage`: the second
dispatch layer, keyed by the literal sub-type tag in field two. -/
def ClientQueryMessage.tryFrom (fields : List String) : PRes ClientQueryMessage := do
  checkMin fields 3
  let f₀ ← idx fields 0
  let first := strDrop f₀ 3
  let f₂ ← idx fields 2
  let f₁ ← idx fields 1
  match f₂ with
  | "C?" => pure (ClientQueryMessage.new first f₁ .Com1Freq)
  | "IP" => pure (ClientQueryMessage.new first f₁ .PublicIP)
  | "ATIS" => pure (ClientQueryMessage.new first f₁ .ATIS)
  | "RN" => pure (ClientQueryMessage.new first f₁ .RealName)
  | "IPC" => do
    let remainder ←
      okOr (if 6 ≤ fields.length then some ((fields.drop 3).take 3) else none)
        (.InvalidFieldCount 6 3)
    let r₀ ← idx remainder 0
    let r₁ ← idx remainder 1
    if r₀ ≠ "W" ∨ r₁ ≠ "852" then
      PRes.err (.UnknownMessageType ("IPC:" ++ f₀ ++ ":" ++ f₁ ++ ":" ++ f₂))
    else do
      let r₂ ← idx remainder 2
      let code ← liftE (TransponderCode.tryFromBcdFormat r₂)
      pure (ClientQueryMessage.new first f₁ (.ForceBeaconCode code))
  | "SV" => pure (ClientQueryMessage.new first f₁ .Server)
  | "ACC" => do
    let data ← okOr (getOpt fields 3) (.InvalidFieldCount 4 3)
    if strContains data "request" then
      pure (ClientQueryMessage.new first f₁ .AircraftConfigurationRequest)
    else do
      let joined := assemble_with_colons (fields.drop 3)
      let config ← liftE (AircraftConfig.fromStr joined)
      pure (ClientQueryMessage.new first f₁ (.AircraftConfigurationResponse config))
  | "BY" => pure (ClientQueryMessage.new first f₁ .RequestRelief)
  | "HLP" => do
    let message := match getOpt fields 3 with
      | some s => if s.data.isEmpty then none else some s
      | none => none
    pure (ClientQueryMessage.new first f₁ (.HelpRequest message))
  | "NOHLP" => do
    let message := match getOpt fields 3 with
      | some s => if s.data.isEmpty then none else some s
      | none => none
    pure (ClientQueryMessage.new first f₁ (.CancelHelpRequest message))
  | "SC" => do
    checkMin fields 5
    let f₄ ← idx fields 4
    let contents ← liftE (ScratchPad.fromStr f₄)
    let f₃ ← idx fields 3
    pure (ClientQueryMessage.new first f₁ (.SetScratchpad (rustToUppercase f₃) contents))
  | "FA" => do
    checkMin fields 5
    let f₄ ← idx fields 4
    let altitude ← liftE (parse_altitude f₄)
    let f₃ ← idx fields 3
    pure (ClientQueryMessage.new first f₁ (.SetFinalAltitude (rustToUppercase f₃) altitude))
  | "BC" => do
    checkMin fields 5
    let f₄ ← idx fields 4
    let squawk ← liftE (TransponderCode.fromStr f₄)
    let f₃ ← idx fields 3
    pure (ClientQueryMessage.new first f₁ (.SetBeaconCode (rustToUppercase f₃) squawk))
  | "ATC" => do
    let subject ← okOr (getOpt fields 3) (.InvalidFieldCount 4 3)
    pure (ClientQueryMessage.new first f₁ (.IsValidATC (rustToUppercase subject)))
  | "FP" => do
    let subject ← okOr (getOpt fields 3) (.InvalidFieldCount 4 3)
    pure (ClientQueryMessage.new first f₁ (.FlightPlan (rustToUppercase subject)))
  | "NEWATIS" => do
    checkMin fields 5
    let parsed ← parse_new_atis (fields.drop 3)
    pure (ClientQueryMessage.new first f₁ (.NewATIS parsed.1 parsed.2.1 parsed.2.2))
  | "VT" => do
    checkMin fields 5
    let f₃ ← idx fields 3
    let f₄ ← idx fields 4
    let vc ← liftE (VoiceCapability.fromStr f₄)
    pure (ClientQueryMessage.new first f₁ (.SetVoiceType (rustToUppercase f₃) vc))
  | "WH" => do
    checkMin fields 4
    let f₃ ← idx fields 3
    pure (ClientQueryMessage.new first f₁ (.WhoHas (rustToUppercase f₃)))
  | "TA" => do
    checkMin fields 5
    let f₃ ← idx fields 3
    let f₄ ← idx fields 4
    let altitude ← liftE (parse_altitude f₄)
    pure (ClientQueryMessage.new first f₁ (.SetTempAltitude (rustToUppercase f₃) altitude))
  | "HT" => do
    checkMin fields 5
    let f₃ ← idx fields 3
    let f₄ ← idx fields 4
    pure (ClientQueryMessage.new first f₁
      (.AcceptHandoff (rustToUppercase f₃) (rustToUppercase f₄)))
  | "DR" => do
    checkMin fields 4
    let f₃ ← idx fields 3
    pure (ClientQueryMessage.new first f₁ (.DropTrack (rustToUppercase f₃)))
  | "CAPS" => pure (ClientQueryMessage.new first f₁ .Capabilities)
  | "IT" => do
    checkMin fields 4
    let f₃ ← idx fields 3
    pure (ClientQueryMessage.new first f₁ (.InitiateTrack (rustToUppercase f₃)))
  | "HI" => pure (ClientQueryMessage.new first f₁ .CancelRequestRelief)
  | "INF" => pure (ClientQueryMessage.new first f₁ .INF)
  | "SIMTIME" => do
    checkMin fields 4
    let f₃ ← idx fields 3
    match DateTimeUtc.parseSimFormat f₃ with
    | some time => pure (ClientQueryMessage.new first f₁ (.SimTime time))
    | none =>
      PRes.err (.InvalidTime ("SIMTIME uses incorrect format: " ++ f₃))
  | _ => PRes.err (.UnknownMessageType f₂)

/-! ## messages.rs: client query response envelope -/

/-- Embedding of `messages::ClientQueryResponseMessage`. -/
structure ClientQueryResponseMessage : Type where
  «from» : String
  «to» : String
  response_type : ClientResponseType
deriving DecidableEq

/-- Embedding of `ClientQueryResponseMessage::new`. -/
def ClientQueryResponseMessage.new (from_ to_ : String) (response_type : ClientResponseType) :
    ClientQueryResponseMessage :=
  ⟨rustToUppercase from_, rustToUppercase to_, response_type⟩

/-- Embedding of `TryFrom<&[&str]> for ClientQueryResponseMessage` (note the
`RN` arm checks only four fields but reads `fields[4]` and `fields[5]`, both
panicking indexes on short lists). -/
def ClientQueryResponseMessage.tryFrom (fields : List String) :
    PRes ClientQueryResponseMessage := do
  checkMin fields 4
  let f₀ ← idx fields 0
  let from_ := strDrop f₀ 3
  let to_ ← idx fields 1
  let f₂ ← idx fields 2
  let response_type ← match f₂ with
    | "C?" => do
      let f₃ ← idx fields 3
      let freq ← liftE (RadioFrequency.try_from_human_readable_string f₃)
      pure (ClientResponseType.Com1Freq freq)
    | "ATIS" => do
      checkMin fields 5
      let f₃ ← idx fields 3
      match f₃ with
      | "V" => do
        let f₄ ← idx fields 4
        pure (ClientResponseType.ATIS (.VoiceServer f₄))
      | "T" => do
        let message := assemble_with_colons (fields.drop 4)
        pure (ClientResponseType.ATIS (.TextLine message))
      | "Z" => do
        let f₄ ← idx fields 4
        let logoff_time :=
          if f₄.data.getLast? = some 'z' then (⟨f₄.data.dropLast⟩ : String) else f₄
        pure (ClientResponseType.ATIS (.LogoffTime (rustParseU16 logoff_time)))
      | "E" => do
        let f₄ ← idx fields 4
        let line_count ← okOr (rustParseUsize f₄) (.InvalidATISLine f₄)
        pure (ClientResponseType.ATIS (.EndMarker line_count))
      | _ => PRes.err (.InvalidATISLine f₃)
    | "RN" => do
      checkMin fields 4
      let f₃ ← idx fields 3
      let f₄ ← idx fields 4
      let f₅ ← idx fields 5
      let rating ← okOr (rustParseU8 f₅) (.InvalidRating f₅)
      pure (ClientResponseType.RealName f₃ f₄ rating)
    | "IP" => do
      let ip ← okOr (getOpt fields 3) (.InvalidFieldCount 4 fields.length)
      pure (ClientResponseType.PublicIP ip)
    | "SV" => do
      let sv ← okOr (getOpt fields 3) (.InvalidFieldCount 4 fields.length)
      pure (ClientResponseType.Server sv)
    | "ATC" => do
      checkMin fields 5
      let f₃ ← idx fields 3
      let is_valid ← match rustToUppercase f₃ with
        | "Y" => pure true
        | "N" => pure false
        | _ => PRes.err (.InvalidValidAtcStatus f₃)
      let f₄ ← idx fields 4
      pure (ClientResponseType.IsValidATC f₄ is_valid)
    | "CAPS" => do
      checkMin fields 4
      pure (ClientResponseType.Capabilities (read_capabilities (fields.drop 3)))
    | _ => PRes.err (.UnknownMessageType f₂)
  pure (ClientQueryResponseMessage.new from_ to_ response_type)

/-! ## messages.rs: shared state envelope -/

/-- Embedding of `messages::SharedStateMessage`. -/
structure SharedStateMessage : Type where
  «from» : String
  «to» : String
  shared_state_type : SharedStateType
deriving DecidableEq

/-- Embedding of `SharedStateMessage::new`. -/
def SharedStateMessage.new (from_ to_ : String) (shared_state_type : SharedStateType) :
    SharedStateMessage :=
  ⟨rustToUppercase from_, rustToUppercase to_, shared_state_type⟩

/-- Embedding of `TryFrom<&[&str]> for SharedStateMessage`: field three is
the sub-type tag (field two, the `CCP` marker, is never inspected).  Note
the `BC` arm re-checks only four fields and then reads `fields[5]`, a
panicking index on five-field lists. -/
def SharedStateMessage.tryFrom (fields : List String) : PRes SharedStateMessage := do
  checkMin fields 4
  let f₀ ← idx fields 0
  let from_ := strDrop f₀ 3
  let to_ ← idx fields 1
  let f₃ ← idx fields 3
  let shared_state_type ← match f₃ with
    | "VER" => pure SharedStateType.Version
    | "ID" => pure SharedStateType.ID
    | "DI" => pure SharedStateType.DI
    | "IH" => do
      let f₄ ← okOr (getOpt fields 4) (.InvalidFieldCount 5 fields.length)
      pure (SharedStateType.IHave (rustToUppercase f₄))
    | "SC" => do
      checkMin fields 6
      let f₅ ← idx fields 5
      let contents ← liftE (ScratchPad.fromStr f₅)
      let f₄ ← idx fields 4
      pure (SharedStateType.ScratchPad (rustToUppercase f₄) contents)
    | "TA" => do
      checkMin fields 6
      let f₅ ← idx fields 5
      let altitude ← liftE (parse_altitude f₅)
      let f₄ ← idx fields 4
      pure (SharedStateType.TempAltitude (rustToUppercase f₄) altitude)
    | "FA" => do
      checkMin fields 6
      let f₅ ← idx fields 5
      let altitude ← liftE (parse_altitude f₅)
      let f₄ ← idx fields 4
      pure (SharedStateType.FinalAltitude (rustToUppercase f₄) altitude)
    | "VT" => do
      checkMin fields 6
      let f₅ ← idx fields 5
      let voice_capability ← liftE (VoiceCapability.fromStr f₅)
      let f₄ ← idx fields 4
      pure (SharedStateType.VoiceType (rustToUppercase f₄) voice_capability)
    | "BC" => do
      checkMin fields 4
      let f₅ ← idx fields 5
      let squawk ← liftE (TransponderCode.fromStr f₅)
      let f₄ ← idx fields 4
      pure (SharedStateType.BeaconCode (rustToUppercase f₄) squawk)
    | "HC" => do
      let f₄ ← okOr (getOpt fields 4) (.InvalidFieldCount 5 fields.length)
      pure (SharedStateType.HandoffCancel (rustToUppercase f₄))
    | _ => PRes.err (.InvalidSharedStateType f₃)
  pure (SharedStateMessage.new from_ to_ shared_state_type)

/-! ## enums.rs: the tagged union over all message kinds, and the top-level
dispatcher -/

/-- Embedding of `enums::FsdMessageType`. -/
inductive FsdMessageType : Type where
  | AtcRegisterMessage (m : AtcRegisterMessage)
  | PilotRegisterMessage (m : PilotRegisterMessage)
  | AtcDeregisterMessage (m : AtcDeregisterMessage)
  | PilotDeregisterMessage (m : PilotDeregisterMessage)
  | AtcPositionUpdateMessage (m : AtcPositionUpdateMessage)
  | AtcSecondaryVisCentreMessage (m : AtcSecondaryVisCentreMessage)
  | PilotPositionUpdateMessage (m : PilotPositionUpdateMessage)
  | AuthenticationChallengeMessage (m : AuthenticationChallengeMessage)
  | AuthenticationResponseMessage (m : AuthenticationResponseMessage)
  | TextMessage (m : TextMessage)
  | FrequencyMessage (m : FrequencyMessage)
  | ChangeServerMessage (m : ChangeServerMessage)
  | InitialServerHandshakeMessage (m : InitialServerHandshakeMessage)
  | InitialClientHandshakeMessage (m : InitialClientHandshakeMessage)
  | SendFastPositionUpdatesMessage (m : SendFastPositionUpdatesMessage)
  | VelocityPositionStoppedMessage (m : VelocityPositionStoppedMessage)
  | VelocityPositionSlowMessage (m : VelocityPositionSlowMessage)
  | VelocityPositionFastMessage (m : VelocityPositionFastMessage)
  | KillMessage (m : KillMessage)
  | MetarRequestMessage (m : MetarRequestMessage)
  | MetarResponseMessage (m : MetarResponseMessage)
  | PingMessage (m : PingMessage)
  | PongMessage (m : PongMessage)
  | PlaneInfoRequestMessage (m : PlaneInfoRequestMessage)
  | PlaneInfoResponseMessage (m : PlaneInfoResponseMessage)
  | FsdErrorMessage (m : FsdErrorMessage)
  | FlightPlanMessage (m : FlightPlanMessage)
  | FlightPlanAmendmentMessage (m : FlightPlanAmendmentMessage)
  | FSInnPlaneInformationRequestMessage
  | FSInnPlaneInformationResponseMessage
  | ServerHeartbeat
  | ClientQueryMessage (m : ClientQueryMessage)
  | ClientQueryResponseMessage (m : ClientQueryResponseMessage)
  | HandoffOfferMessage (m : HandoffOfferMessage)
  | HandoffAcceptMessage (m : HandoffAcceptMessage)
  | SharedStateMessage (m : SharedStateMessage)
deriving DecidableEq

/-- Embedding of `FsdMessageType::identify`: colon-splits the line, handles
the one-field deregistration special case, then tries the prefixes in the
source's priority order.  `#TM` is disambiguated on field one, `#SB` on
field two (read with a panicking index). -/
def FsdMessageType.identify (message : String) : PRes FsdMessageType := do
  let fields := rustSplit ':' message
  if fields.length < 2 then do
    let f₀ ← idx fields 0
    if strStartsWith f₀ "#DA" then
      return FsdMessageType.AtcDeregisterMessage (← AtcDeregisterMessage.tryFrom fields)
    if strStartsWith f₀ "#DP" then
      return FsdMessageType.PilotDeregisterMessage (← PilotDeregisterMessage.tryFrom fields)
    PRes.err (.UnknownMessageType message)
  else do
    let f₀ ← idx fields 0
    if strStartsWith f₀ "#DA" then
      return FsdMessageType.AtcDeregisterMessage (← AtcDeregisterMessage.tryFrom fields)
    if strStartsWith f₀ "#DP" then
      return FsdMessageType.PilotDeregisterMessage (← PilotDeregisterMessage.tryFrom fields)
    if strStartsWith f₀ "#AA" then
      return FsdMessageType.AtcRegisterMessage (← AtcRegisterMessage.tryFrom fields)
    if strStartsWith f₀ "#AP" then
      return FsdMessageType.PilotRegisterMessage (← PilotRegisterMessage.tryFrom fields)
    if strStartsWith f₀ "%" then
      return FsdMessageType.AtcPositionUpdateMessage (← AtcPositionUpdateMessage.tryFrom fields)
    if strStartsWith f₀ "\x27" then
      return FsdMessageType.AtcSecondaryVisCentreMessage
        (← AtcSecondaryVisCentreMessage.tryFrom fields)
    if strStartsWith f₀ "@" then
      return FsdMessageType.PilotPositionUpdateMessage
        (← PilotPositionUpdateMessage.tryFrom fields)
    if strStartsWith f₀ "$ZC" then
      return FsdMessageType.AuthenticationChallengeMessage
        (← AuthenticationChallengeMessage.tryFrom fields)
    if strStartsWith f₀ "$ZR" then
      return FsdMessageType.AuthenticationResponseMessage
        (← AuthenticationResponseMessage.tryFrom fields)
    if strStartsWith f₀ "$ER" then
      return FsdMessageType.FsdErrorMessage (← FsdErrorMessage.tryFrom fields)
    if strStartsWith f₀ "$HO" then
      return FsdMessageType.HandoffOfferMessage (← HandoffOfferMessage.tryFrom fields)
    if strStartsWith f₀ "$HA" then
      return FsdMessageType.HandoffAcceptMessage (← HandoffAcceptMessage.tryFrom fields)
    if strStartsWith f₀ "#TM" then do
      let f₁ ← idx fields 1
      if strStartsWith f₁ "@" then
        return FsdMessageType.FrequencyMessage (← FrequencyMessage.tryFrom fields)
      return FsdMessageType.TextMessage (← TextMessage.tryFrom fields)
    if strStartsWith f₀ "$XX" then
      return FsdMessageType.ChangeServerMessage (← ChangeServerMessage.tryFrom fields)
    if strStartsWith f₀ "$FP" then
      return FsdMessageType.FlightPlanMessage (← FlightPlanMessage.tryFrom fields)
    if strStartsWith f₀ "$AM" then
      return FsdMessageType.FlightPlanAmendmentMessage
        (← FlightPlanAmendmentMessage.tryFrom fields)
    if strStartsWith f₀ "$DI" then
      return FsdMessageType.InitialServerHandshakeMessage
        (← InitialServerHandshakeMessage.tryFrom fields)
    if strStartsWith f₀ "$ID" then
      return FsdMessageType.InitialClientHandshakeMessage
        (← InitialClientHandshakeMessage.tryFrom fields)
    if strStartsWith f₀ "$SF" then
      return FsdMessageType.SendFastPositionUpdatesMessage
        (← SendFastPositionUpdatesMessage.tryFrom fields)
    if strStartsWith f₀ "#ST" then
      return FsdMessageType.VelocityPositionStoppedMessage
        (← VelocityPositionStoppedMessage.tryFrom fields)
    if strStartsWith f₀ "#DL" then
      return FsdMessageType.ServerHeartbeat
    if strStartsWith f₀ "#SL" then
      return FsdMessageType.VelocityPositionSlowMessage
        (← VelocityPositionSlowMessage.tryFrom fields)
    if strStartsWith f₀ "#PC" then
      return FsdMessageType.SharedStateMessage (← SharedStateMessage.tryFrom fields)
    if strStartsWith f₀ "^" then
      return FsdMessageType.VelocityPositionFastMessage
        (← VelocityPositionFastMessage.tryFrom fields)
    if strStartsWith f₀ "$!!" then
      return FsdMessageType.KillMessage (← KillMessage.tryFrom fields)
    if strStartsWith f₀ "$AX" then
      return FsdMessageType.MetarRequestMessage (← MetarRequestMessage.tryFrom fields)
    if strStartsWith f₀ "$AR" then
      return FsdMessageType.MetarResponseMessage (← MetarResponseMessage.tryFrom fields)
    if strStartsWith f₀ "$CQ" then
      return FsdMessageType.ClientQueryMessage (← ClientQueryMessage.tryFrom fields)
    if strStartsWith f₀ "$CR" then
      return FsdMessageType.ClientQueryResponseMessage
        (← ClientQueryResponseMessage.tryFrom fields)
    if strStartsWith f₀ "$PI" then
      return FsdMessageType.PingMessage (← PingMessage.tryFrom fields)
    if strStartsWith f₀ "$PO" then
      return FsdMessageType.PongMessage (← PongMessage.tryFrom fields)
    if strStartsWith f₀ "#SB" then do
      let f₂ ← idx fields 2
      if f₂ = "PIR" then
        return FsdMessageType.PlaneInfoRequestMessage (← PlaneInfoRequestMessage.tryFrom fields)
      if f₂ = "PI" then
        return FsdMessageType.PlaneInfoResponseMessage
          (← PlaneInfoResponseMessage.tryFrom fields)
      if f₂ = "FSIPI" then
        return FsdMessageType.FSInnPlaneInformationResponseMessage
      if f₂ = "FSIPIR" then
        return FsdMessageType.FSInnPlaneInformationRequestMessage
      PRes.err (.UnknownMessageType message)
    else
      PRes.err (.UnknownMessageType message)

/-! ## Lemmas: decimal digits, formatting and parsing -/

lemma digitChar_isDigit {m : Nat} (h : m < 10) : (Nat.digitChar m).isDigit = true := by
  interval_cases m <;> decide

lemma digitVal_digitChar {m : Nat} (h : m < 10) : digitVal (Nat.digitChar m) = m := by
  interval_cases m <;> decide

lemma digitChar_ne_plus {m : Nat} (h : m < 10) : Nat.digitChar m ≠ '+' := by
  interval_cases m <;> decide

lemma natDigitsRevFuel_congr :
    ∀ f₁ f₂ n, n < f₁ → n < f₂ → natDigitsRevFuel f₁ n = natDigitsRevFuel f₂ n := by
  intro f₁
  induction f₁ with
  | zero => intro f₂ n h₁; omega
  | succ f ih =>
    intro f₂ n h₁ h₂
    cases f₂ with
    | zero => omega
    | succ g =>
      show natDigitsRevFuel (f + 1) n = natDigitsRevFuel (g + 1) n
      unfold natDigitsRevFuel
      by_cases hn : n < 10
      · simp [hn]
      · simp only [hn, if_false]
        have hd : n / 10 < n := Nat.div_lt_self (by omega) (by omega)
        rw [ih g (n / 10) (by omega) (by omega)]

/-- Unfolding equation for `natDigitsRev`, independent of the fuel. -/
lemma natDigitsRev_eq (n : Nat) :
    natDigitsRev n =
      if n < 10 then [Nat.digitChar n]
      else Nat.digitChar (n % 10) :: natDigitsRev (n / 10) := by
  show natDigitsRevFuel (n + 1) n = _
  unfold natDigitsRevFuel
  by_cases hn : n < 10
  · simp [hn]
  · simp only [hn, if_false]
    have hd : n / 10 < n := Nat.div_lt_self (by omega) (by omega)
    rw [natDigitsRevFuel_congr n (n / 10 + 1) (n / 10) (by omega) (by omega)]
    rfl

lemma natDigitsRev_ne_nil (n : Nat) : natDigitsRev n ≠ [] := by
  rw [natDigitsRev_eq]
  by_cases hn : n < 10 <;> simp [hn]

lemma natDigitsRev_all_isDigit (n : Nat) : (natDigitsRev n).all Char.isDigit = true := by
  induction n using Nat.strong_induction_on with
  | _ n ih =>
    rw [natDigitsRev_eq]
    by_cases hn : n < 10
    · simp [hn, digitChar_isDigit]
    · have hd : n / 10 < n := Nat.div_lt_self (by omega) (by omega)
      simp only [hn, if_false, List.all_cons, Bool.and_eq_true]
      exact ⟨digitChar_isDigit (Nat.mod_lt n (by omega)), ih (n / 10) hd⟩

lemma parseDigits_append (l₁ l₂ : List Char) :
    parseDigits (l₁ ++ l₂) = (l₁ ++ l₂).foldl (fun a c => a * 10 + digitVal c) 0 := rfl

lemma foldl_digits_step (l : List Char) :
    ∀ a : Nat, l.foldl (fun a c => a * 10 + digitVal c) a =
      a * 10 ^ l.length + l.foldl (fun a c => a * 10 + digitVal c) 0 := by
  induction l with
  | nil => intro a; simp
  | cons c t ih =>
    intro a
    simp only [List.foldl_cons, List.length_cons]
    rw [ih (a * 10 + digitVal c), ih (0 * 10 + digitVal c)]
    ring

/-- Reading back the digits of `n` recovers `n`. -/
lemma parseDigits_natDigitsRev (n : Nat) : parseDigits (natDigitsRev n).reverse = n := by
  induction n using Nat.strong_induction_on with
  | _ n ih =>
    rw [natDigitsRev_eq]
    by_cases hn : n < 10
    · simp [hn, parseDigits, digitVal_digitChar hn]
    · have hd : n / 10 < n := Nat.div_lt_self (by omega) (by omega)
      simp only [hn, if_false, List.reverse_cons]
      unfold parseDigits
      rw [List.foldl_append]
      have hrec := ih (n / 10) hd
      unfold parseDigits at hrec
      rw [hrec]
      simp [digitVal_digitChar (Nat.mod_lt n (by omega) : n % 10 < 10)]
      omega

lemma parseDigits_replicate_zero (k : Nat) (l : List Char) :
    parseDigits (List.replicate k '0' ++ l) = parseDigits l := by
  induction k with
  | zero => simp
  | succ m ih =>
    show parseDigits ('0' :: (List.replicate m '0' ++ l)) = parseDigits l
    unfold parseDigits at ih ⊢
    simpa using ih

lemma stripLeadingPlus_of_isDigit {l : List Char} (hne : l ≠ [])
    (hd : l.all Char.isDigit = true) : stripLeadingPlus l = l := by
  cases l with
  | nil => simp at hne
  | cons c t =>
    simp only [List.all_cons, Bool.and_eq_true] at hd
    have : c ≠ '+' := by
      intro hc
      rw [hc] at hd
      exact absurd hd.1 (by decide)
    unfold stripLeadingPlus
    split
    · rename_i heq
      injection heq with h₁ h₂
      exact absurd h₁.symm (fun hx => this hx.symm)
    · rfl

/-- Parsing the canonical decimal print of `n` succeeds and yields `n`. -/
lemma rustParseUNat_natToStr {n bound : Nat} (h : n < bound) :
    rustParseUNat (natToStr n) bound = some n := by
  unfold rustParseUNat natToStr
  have hall : ((natDigitsRev n).reverse).all Char.isDigit = true := by
    rw [List.all_eq_true] at *
    intro c hc
    exact (List.all_eq_true.mp (natDigitsRev_all_isDigit n)) c (List.mem_reverse.mp hc)
  have hne : (natDigitsRev n).reverse ≠ [] := by
    simpa using natDigitsRev_ne_nil n
  rw [show (String.mk (natDigitsRev n).reverse).data = (natDigitsRev n).reverse from rfl]
  rw [stripLeadingPlus_of_isDigit hne hall]
  simp only [hall, if_true]
  rw [parseDigits_natDigitsRev]
  simp [List.isEmpty_iff, hne, h]

/-- Parsing a zero-padded decimal print also yields `n`. -/
lemma rustParseUNat_fmtPad {w n bound : Nat} (h : n < bound) :
    rustParseUNat (fmtPad w n) bound = some n := by
  unfold rustParseUNat fmtPad
  have hallr : ((natDigitsRev n).reverse).all Char.isDigit = true := by
    rw [List.all_eq_true] at *
    intro c hc
    exact (List.all_eq_true.mp (natDigitsRev_all_isDigit n)) c (List.mem_reverse.mp hc)
  have hall : (List.replicate (w - (natDigitsRev n).reverse.length) '0' ++
      (natDigitsRev n).reverse).all Char.isDigit = true := by
    rw [List.all_eq_true]
    intro c hc
    rw [List.mem_append] at hc
    rcases hc with hc | hc
    · rw [List.eq_of_mem_replicate hc]; decide
    · exact (List.all_eq_true.mp hallr) c hc
  have hne : List.replicate (w - (natDigitsRev n).reverse.length) '0' ++
      (natDigitsRev n).reverse ≠ [] := by
    intro hc
    rw [List.append_eq_nil] at hc
    exact natDigitsRev_ne_nil n (List.reverse_eq_nil_iff.mp hc.2)
  rw [show (String.mk (List.replicate (w - (natDigitsRev n).reverse.length) '0' ++
      (natDigitsRev n).reverse)).data = _ from rfl]
  rw [stripLeadingPlus_of_isDigit hne hall]
  simp only [hall, if_true]
  rw [parseDigits_replicate_zero, parseDigits_natDigitsRev]
  simp [List.isEmpty_iff, hne, h]
  intro _
  exact natDigitsRev_ne_nil n

lemma natDigitsRev_lt_ten {n : Nat} (h : n < 10) : natDigitsRev n = [Nat.digitChar n] := by
  rw [natDigitsRev_eq]; simp [h]

lemma natDigitsRev_two_digits {n : Nat} (h₁ : 10 ≤ n) (h₂ : n < 100) :
    natDigitsRev n = [Nat.digitChar (n % 10), Nat.digitChar (n / 10)] := by
  rw [natDigitsRev_eq]
  simp only [show ¬ n < 10 by omega, if_false]
  rw [natDigitsRev_lt_ten (show n / 10 < 10 by omega)]

lemma natDigitsRev_three_digits {n : Nat} (h₁ : 100 ≤ n) (h₂ : n < 1000) :
    natDigitsRev n =
      [Nat.digitChar (n % 10), Nat.digitChar (n / 10 % 10), Nat.digitChar (n / 100)] := by
  rw [natDigitsRev_eq]
  simp only [show ¬ n < 10 by omega, if_false]
  rw [natDigitsRev_two_digits (show 10 ≤ n / 10 by omega) (show n / 10 < 100 by omega)]
  have : n / 10 / 10 = n / 100 := by omega
  rw [this]

lemma natDigitsRev_four_digits {n : Nat} (h₁ : 1000 ≤ n) (h₂ : n < 10000) :
    natDigitsRev n =
      [Nat.digitChar (n % 10), Nat.digitChar (n / 10 % 10), Nat.digitChar (n / 100 % 10),
        Nat.digitChar (n / 1000)] := by
  rw [natDigitsRev_eq]
  simp only [show ¬ n < 10 by omega, if_false]
  rw [natDigitsRev_three_digits (show 100 ≤ n / 10 by omega) (show n / 10 < 1000 by omega)]
  have e₁ : n / 10 / 10 % 10 = n / 100 % 10 := by omega
  have e₂ : n / 10 / 100 = n / 1000 := by omega
  rw [e₁, e₂]

/-- Explicit character content of the `{:04}`-padded print of a four-digit
value. -/
lemma fmtPad_four_chars {n : Nat} (h : n < 10000) :
    fmtPad 4 n = ⟨[Nat.digitChar (n / 1000 % 10), Nat.digitChar (n / 100 % 10),
      Nat.digitChar (n / 10 % 10), Nat.digitChar (n % 10)]⟩ := by
  unfold fmtPad
  by_cases h₁ : n < 10
  · rw [natDigitsRev_lt_ten h₁]
    have e₀ : n / 1000 % 10 = 0 := by omega
    have e₁ : n / 100 % 10 = 0 := by omega
    have e₂ : n / 10 % 10 = 0 := by omega
    have e₃ : n % 10 = n := by omega
    rw [e₀, e₁, e₂, e₃]
    rfl
  · by_cases h₂ : n < 100
    · rw [natDigitsRev_two_digits (by omega) h₂]
      have e₀ : n / 1000 % 10 = 0 := by omega
      have e₁ : n / 100 % 10 = 0 := by omega
      have e₂ : n / 10 % 10 = n / 10 := by omega
      rw [e₀, e₁, e₂]
      rfl
    · by_cases h₃ : n < 1000
      · rw [natDigitsRev_three_digits (by omega) h₃]
        have e₀ : n / 1000 % 10 = 0 := by omega
        have e₂ : n / 100 % 10 = n / 100 := by omega
        rw [e₀, e₂]
        rfl
      · rw [natDigitsRev_four_digits (by omega) h]
        have e₀ : n / 1000 % 10 = n / 1000 := by omega
        rw [e₀]
        rfl

/-- Explicit character content of the `{:03}`-padded print of a
thousandths value. -/
lemma fmtPad_three_chars {n : Nat} (h : n < 1000) :
    fmtPad 3 n = ⟨[Nat.digitChar (n / 100 % 10), Nat.digitChar (n / 10 % 10),
      Nat.digitChar (n % 10)]⟩ := by
  unfold fmtPad
  by_cases h₁ : n < 10
  · rw [natDigitsRev_lt_ten h₁]
    have e₁ : n / 100 % 10 = 0 := by omega
    have e₂ : n / 10 % 10 = 0 := by omega
    have e₃ : n % 10 = n := by omega
    rw [e₁, e₂, e₃]
    rfl
  · by_cases h₂ : n < 100
    · rw [natDigitsRev_two_digits (by omega) h₂]
      have e₁ : n / 100 % 10 = 0 := by omega
      have e₂ : n / 10 % 10 = n / 10 := by omega
      rw [e₁, e₂]
      rfl
    · rw [natDigitsRev_three_digits (by omega) h]
      have e₂ : n / 100 % 10 = n / 100 := by omega
      rw [e₂]
      rfl

lemma natToStr_two_len {n : Nat} (h₁ : 10 ≤ n) (h₂ : n < 100) :
    (natToStr n).data.length = 2 := by
  unfold natToStr
  rw [show (String.mk (natDigitsRev n).reverse).data = (natDigitsRev n).reverse from rfl]
  rw [natDigitsRev_two_digits h₁ h₂]
  rfl

lemma fmtPad_three_len {n : Nat} (h : n < 1000) : (fmtPad 3 n).data.length = 3 := by
  rw [fmtPad_three_chars h]
  rfl

/-! ## Lemmas: splitting -/

lemma splitListBy_of_no_sep {p : Char → Bool} :
    ∀ {cs : List Char}, (∀ c ∈ cs, p c = false) → splitListBy p cs = [cs] := by
  intro cs
  induction cs with
  | nil => intro _; rfl
  | cons c t ih =>
    intro h
    unfold splitListBy
    rw [ih (fun x hx => h x (List.mem_cons_of_mem c hx))]
    simp [h c (List.mem_cons_self c t)]

lemma splitListBy_cons (p : Char → Bool) (c : Char) (rest : List Char) :
    splitListBy p (c :: rest) =
      match splitListBy p rest with
      | h :: t => if p c then [] :: h :: t else (c :: h) :: t
      | [] => if p c then [[], []] else [[c]] := rfl

lemma splitListBy_ne_nil (p : Char → Bool) : ∀ cs, splitListBy p cs ≠ [] := by
  intro cs
  cases cs with
  | nil => simp [splitListBy]
  | cons c t =>
    rw [splitListBy_cons]
    rcases splitListBy p t with _ | ⟨h, r⟩ <;> by_cases hc : p c <;> simp [hc]

lemma splitListBy_append {p : Char → Bool} {sep : Char} (hsep : p sep = true) :
    ∀ {A : List Char} (B : List Char), (∀ c ∈ A, p c = false) →
      splitListBy p (A ++ sep :: B) = A :: splitListBy p B := by
  intro A
  induction A with
  | nil =>
    intro B _
    show splitListBy p (sep :: B) = [] :: splitListBy p B
    rw [splitListBy_cons]
    rcases hB : splitListBy p B with _ | ⟨h, t⟩
    · exact absurd hB (splitListBy_ne_nil p B)
    · simp [hsep]
  | cons c t ih =>
    intro B h
    show splitListBy p (c :: (t ++ sep :: B)) = (c :: t) :: splitListBy p B
    rw [splitListBy_cons]
    rw [ih B (fun x hx => h x (List.mem_cons_of_mem c hx))]
    simp [h c (List.mem_cons_self c t)]

lemma no_dot_of_all_digits {l : List Char} (h : l.all Char.isDigit = true) :
    ∀ c ∈ l, decide (c = '.') = false := by
  intro c hc
  have hd := (List.all_eq_true.mp h) c hc
  by_cases hcd : c = '.'
  · rw [hcd] at hd; exact absurd hd (by decide)
  · simp [hcd]

lemma natToStr_all_digits (n : Nat) : (natToStr n).data.all Char.isDigit = true := by
  show ((natDigitsRev n).reverse).all Char.isDigit = true
  rw [List.all_eq_true] at *
  intro c hc
  exact (List.all_eq_true.mp (natDigitsRev_all_isDigit n)) c (List.mem_reverse.mp hc)

lemma fmtPad_all_digits (w n : Nat) : (fmtPad w n).data.all Char.isDigit = true := by
  show (List.replicate _ '0' ++ (natDigitsRev n).reverse).all Char.isDigit = true
  rw [List.all_eq_true]
  intro c hc
  rw [List.mem_append] at hc
  rcases hc with hc | hc
  · rw [List.eq_of_mem_replicate hc]; decide
  · exact (List.all_eq_true.mp (natDigitsRev_all_isDigit n)) c (List.mem_reverse.mp hc)

/-- Splitting the canonical dotted frequency print on `'.'` recovers the two
chunks. -/
lemma rustSplit_dot_human (l r : Nat) :
    rustSplit '.' (natToStr l ++ "." ++ fmtPad 3 r) = [natToStr l, fmtPad 3 r] := by
  unfold rustSplit
  have hdata : (natToStr l ++ "." ++ fmtPad 3 r).data =
      (natToStr l).data ++ '.' :: (fmtPad 3 r).data := by
    rw [String.data_append, String.data_append, List.append_assoc]
    rfl
  rw [hdata]
  rw [splitListBy_append (by decide) _ (no_dot_of_all_digits (natToStr_all_digits l))]
  rw [splitListBy_of_no_sep (no_dot_of_all_digits (fmtPad_all_digits 3 r))]
  rfl

lemma rustParseU16_natToStr {n : Nat} (h : n < 65536) : rustParseU16 (natToStr n) = some n :=
  rustParseUNat_natToStr h

lemma rustParseU16_fmtPad {w n : Nat} (h : n < 65536) : rustParseU16 (fmtPad w n) = some n :=
  rustParseUNat_fmtPad h

lemma strMk_data (s : String) : (⟨s.data⟩ : String) = s := rfl

/-- C7: for every valid radio frequency (whole part 118–137 with a
thousandths part, or the reserved 199.998 / 149.999), the dotted
human-readable print parses back to the same value via the dotted parser and
the compact 5-character wire print parses back to the same value via the wire
parser, so the two textual forms denote one internal value. -/
theorem C7_radio_frequency_dual_form_roundtrip (l r : Nat)
    (hv : (118 ≤ l ∧ l ≤ 137 ∧ r < 1000) ∨ (l = 199 ∧ r = 998) ∨ (l = 149 ∧ r = 999)) :
    RadioFrequency.try_from_human_readable_string
        (RadioFrequency.to_human_readable_string ⟨l, r⟩) = .ok ⟨l, r⟩ ∧
      RadioFrequency.fromStr (RadioFrequency.display ⟨l, r⟩) = .ok ⟨l, r⟩ := by
  have hr : r < 1000 := by
    rcases hv with ⟨_, _, h⟩ | ⟨_, h⟩ | ⟨_, h⟩ <;> omega
  have hl₁ : 118 ≤ l := by
    rcases hv with ⟨h, _, _⟩ | ⟨h, _⟩ | ⟨h, _⟩ <;> omega
  have hl₂ : l ≤ 199 := by
    rcases hv with ⟨_, h, _⟩ | ⟨h, _⟩ | ⟨h, _⟩ <;> omega
  have hcond : (118 ≤ l ∧ l ≤ 137) ∨ (l = 199 ∧ r = 998) ∨ (l = 149 ∧ r = 999) := by
    rcases hv with ⟨h₁, h₂, _⟩ | h | h
    · exact Or.inl ⟨h₁, h₂⟩
    · exact Or.inr (Or.inl h)
    · exact Or.inr (Or.inr h)
  have hnn : ¬ ¬ ((118 ≤ l ∧ l ≤ 137) ∨ (l = 199 ∧ r = 998) ∨ (l = 149 ∧ r = 999)) :=
    not_not_intro hcond
  constructor
  · show RadioFrequency.try_from_human_readable_string
      (natToStr l ++ "." ++ fmtPad 3 r) = .ok ⟨l, r⟩
    unfold RadioFrequency.try_from_human_readable_string
    rw [rustSplit_dot_human]
    simp only [List.get?_cons_zero, List.get?_cons_succ,
      rustParseU16_natToStr (show l < 65536 by omega),
      rustParseU16_fmtPad (show r < 65536 by omega)]
    unfold RadioFrequency.new
    rw [if_neg hnn]
  · show RadioFrequency.fromStr (natToStr (l - 100) ++ fmtPad 3 r) = .ok ⟨l, r⟩
    have hlen2 : (natToStr (l - 100)).data.length = 2 := natToStr_two_len (by omega) (by omega)
    have hlen3 : (fmtPad 3 r).data.length = 3 := fmtPad_three_len hr
    unfold RadioFrequency.fromStr
    rw [String.data_append]
    rw [List.take_left' hlen2, List.drop_left' hlen2]
    rw [strMk_data, strMk_data]
    simp only [List.length_append, hlen2, hlen3]
    rw [if_neg (by omega)]
    simp only [rustParseU16_natToStr (show l - 100 < 65536 by omega),
      rustParseU16_fmtPad (show r < 65536 by omega)]
    rw [show l - 100 + 100 = l from by omega]
    unfold RadioFrequency.new
    rw [if_neg hnn]

lemma rustParseU16_four_digit_chars {a b c d : Nat} (ha : a < 10) (hb : b < 10)
    (hc : c < 10) (hd : d < 10) :
    rustParseU16 ⟨[Nat.digitChar a, Nat.digitChar b, Nat.digitChar c, Nat.digitChar d]⟩ =
      some (a * 1000 + b * 100 + c * 10 + d) := by
  have hall : ([Nat.digitChar a, Nat.digitChar b, Nat.digitChar c,
      Nat.digitChar d]).all Char.isDigit = true := by
    simp [List.all_cons, digitChar_isDigit ha, digitChar_isDigit hb, digitChar_isDigit hc,
      digitChar_isDigit hd]
  have hv : parseDigits [Nat.digitChar a, Nat.digitChar b, Nat.digitChar c,
      Nat.digitChar d] = a * 1000 + b * 100 + c * 10 + d := by
    unfold parseDigits
    simp only [List.foldl_cons, List.foldl_nil, digitVal_digitChar ha, digitVal_digitChar hb,
      digitVal_digitChar hc, digitVal_digitChar hd]
    omega
  unfold rustParseU16 rustParseUNat
  rw [show (String.mk [Nat.digitChar a, Nat.digitChar b, Nat.digitChar c,
      Nat.digitChar d]).data = [Nat.digitChar a, Nat.digitChar b, Nat.digitChar c,
      Nat.digitChar d] from rfl]
  rw [stripLeadingPlus_of_isDigit (by simp) hall]
  simp only [hall, if_true, List.isEmpty_cons, Bool.false_eq_true, if_false, hv]
  rw [if_pos (by omega)]

lemma tryFromU16_digit_split {a b c d : Nat} (hb : b < 10)
    (hc : c < 10) (hd : d < 10) :
    TransponderCode.tryFromU16 (a * 1000 + b * 100 + c * 10 + d) =
      if [a, b, c, d].any (fun x => 7 < x) then
        .error (.InvalidTransponderCode (fmtPad 4 d))
      else .ok ⟨a * 1000 + b * 100 + c * 10 + d⟩ := by
  unfold TransponderCode.tryFromU16
  dsimp only
  have e₁ : (a * 1000 + b * 100 + c * 10 + d) / 1000 = a := by omega
  rw [e₁]
  have e₂ : a * 1000 + b * 100 + c * 10 + d - a * 1000 = b * 100 + c * 10 + d := by omega
  rw [e₂]
  have e₃ : (b * 100 + c * 10 + d) / 100 = b := by omega
  rw [e₃]
  have e₄ : b * 100 + c * 10 + d - b * 100 = c * 10 + d := by omega
  rw [e₄]
  have e₅ : (c * 10 + d) / 10 = c := by omega
  rw [e₅]
  have e₆ : c * 10 + d - c * 10 = d := by omega
  rw [e₆]

/-- C6: every 4-character decimal string with digits in 0–7 parses as a
transponder code that re-serializes to the same zero-padded string, while any
4-digit numeric string with a digit ≥ 8 fails with `InvalidTransponderCode`. -/
theorem C6_transponder_code_octal_digits :
    (∀ a b c d : Nat, a ≤ 7 → b ≤ 7 → c ≤ 7 → d ≤ 7 →
      TransponderCode.fromStr ⟨[Nat.digitChar a, Nat.digitChar b, Nat.digitChar c,
          Nat.digitChar d]⟩ = .ok ⟨a * 1000 + b * 100 + c * 10 + d⟩ ∧
        TransponderCode.display ⟨a * 1000 + b * 100 + c * 10 + d⟩ =
          ⟨[Nat.digitChar a, Nat.digitChar b, Nat.digitChar c, Nat.digitChar d]⟩) ∧
    (∀ a b c d : Nat, a < 10 → b < 10 → c < 10 → d < 10 →
      (8 ≤ a ∨ 8 ≤ b ∨ 8 ≤ c ∨ 8 ≤ d) →
      ∃ t, TransponderCode.fromStr ⟨[Nat.digitChar a, Nat.digitChar b, Nat.digitChar c,
          Nat.digitChar d]⟩ = .error (.InvalidTransponderCode t)) := by
  constructor
  · intro a b c d ha hb hc hd
    have hn : a * 1000 + b * 100 + c * 10 + d < 10000 := by omega
    constructor
    · unfold TransponderCode.fromStr
      simp only [rustParseU16_four_digit_chars (show a < 10 by omega) (show b < 10 by omega)
        (show c < 10 by omega) (show d < 10 by omega)]
      rw [tryFromU16_digit_split (by omega) (by omega) (by omega)]
      rw [if_neg]
      simp only [List.any_cons, List.any_nil, Bool.or_eq_true, decide_eq_true_eq,
        Bool.false_eq_true, or_false]
      omega
    · unfold TransponderCode.display
      rw [fmtPad_four_chars hn]
      have e₀ : (a * 1000 + b * 100 + c * 10 + d) / 1000 % 10 = a := by omega
      have e₁ : (a * 1000 + b * 100 + c * 10 + d) / 100 % 10 = b := by omega
      have e₂ : (a * 1000 + b * 100 + c * 10 + d) / 10 % 10 = c := by omega
      have e₃ : (a * 1000 + b * 100 + c * 10 + d) % 10 = d := by omega
      rw [e₀, e₁, e₂, e₃]
  · intro a b c d ha hb hc hd hbig
    refine ⟨fmtPad 4 d, ?_⟩
    unfold TransponderCode.fromStr
    simp only [rustParseU16_four_digit_chars ha hb hc hd]
    rw [tryFromU16_digit_split hb hc hd]
    rw [if_pos]
    simp only [List.any_cons, List.any_nil, Bool.or_eq_true, decide_eq_true_eq,
      Bool.false_eq_true, or_false]
    omega

/-- Witness for C6 at the concrete code 4700 (accepted, round-trips) and at
8000 (digit 8, rejected). -/
theorem C6_transponder_code_octal_digits_witness :
    (TransponderCode.fromStr "4700" = .ok ⟨4700⟩ ∧
      TransponderCode.display ⟨4700⟩ = "4700") ∧
    ∃ t, TransponderCode.fromStr "8000" = .error (.InvalidTransponderCode t) := by
  constructor
  · have h := C6_transponder_code_octal_digits.1 4 7 0 0 (by omega) (by omega) (by omega)
      (by omega)
    simpa using h
  · have h := C6_transponder_code_octal_digits.2 8 0 0 0 (by omega) (by omega) (by omega)
      (by omega) (Or.inl (by omega))
    simpa using h

/-- C9: scratchpad parsing never reports an error: every input yields some
variant, and the plain-text fallback variant always carries the input
verbatim. -/
theorem C9_scratchpad_total (s : String) :
    ∃ v, ScratchPad.fromStr s = .ok v ∧
      ∀ t, v = ScratchPad.PlainTextOrDirect t → t = s := by
  unfold ScratchPad.fromStr
  repeat' split
  all_goals exact ⟨_, rfl, fun t ht => by cases ht <;> rfl⟩

lemma land_two_ne_one (n : Nat) : n &&& 2 ≠ 1 := by
  intro h
  have h0 : (n &&& 2).testBit 0 = true := by rw [h]; decide
  rw [Nat.testBit_and] at h0
  simp at h0

/-- C2 counterexample: at pitch 0, bank 0, heading 0 (all within the claimed
ranges) and on-ground flag `true`, the decode of the encode returns `false`,
so the on-ground flag does not round-trip. -/
theorem C2_on_ground_not_round_trip :
    ¬ (decode_pitch_bank_heading (encode_pitch_bank_heading 0 0 0 true)).2.2.2 = true := by
  have henc : encode_pitch_bank_heading 0 0 0 true = 2 := by
    unfold encode_pitch_bank_heading rustAsU32
    norm_num [Nat.shiftLeft_eq]
  rw [henc]
  decide

/-- C2 amended: for every orientation triple in the claimed ranges and every
on-ground flag `g`, the decoded on-ground flag is `false` (the decoder tests
`(input & 2) == 1`, which no packed value satisfies), so it equals `g`
exactly when `g = false`. -/
theorem C2_on_ground_always_decodes_false (pitch bank heading : ℚ) (g : Bool)
    (_hp₁ : -180 < pitch) (_hp₂ : pitch ≤ 180) (_hb₁ : -180 < bank) (_hb₂ : bank ≤ 180)
    (_hh₁ : 0 ≤ heading) (_hh₂ : heading < 360) :
    (decode_pitch_bank_heading (encode_pitch_bank_heading pitch bank heading g)).2.2.2 =
      false := by
  show ((encode_pitch_bank_heading pitch bank heading g &&& 2) == 1) = false
  exact beq_eq_false_iff_ne.mpr (land_two_ne_one _)

/-- Witness for C2's amended statement at pitch 1, bank −2, heading 3 with
the on-ground flag set. -/
theorem C2_on_ground_always_decodes_false_witness :
    (decode_pitch_bank_heading (encode_pitch_bank_heading 1 (-2) 3 true)).2.2.2 = false :=
  C2_on_ground_always_decodes_false 1 (-2) 3 true (by norm_num) (by norm_num) (by norm_num)
    (by norm_num) (by norm_num) (by norm_num)

/-- C1: the field-count invariant is broken at three places: a `$DI` line
with exactly 3 fields (the parser checks 3 then reads `fields[3]`), a `#SB`
line with exactly 2 fields (the dispatcher reads `fields[2]`), and a
`#PC … BC` line with exactly 5 fields (the `BC` arm reads `fields[5]`); each
parse ends in an out-of-bounds index (`oob`, a Rust panic), not
`InvalidFieldCount`. -/
theorem C1_short_field_lists_panic :
    FsdMessageType.identify "$DISERVER:CLIENT:VATSIM" = .oob ∧
      FsdMessageType.identify "#SBN123:EHAM_TWR" = .oob ∧
      FsdMessageType.identify "#PCEGKK_APP:EGLL_N_APP:CCP:BC:KLM123" = .oob := by
  refine ⟨?_, ?_, ?_⟩ <;> decide

/-- C3: a colon-free line whose single field begins with `#DA` (or `#DP`) is
routed to the deregistration parser by the dispatcher's one-field special
case, but that parser requires two fields, so identification returns
`InvalidFieldCount 2 1` instead of a deregister message. -/
theorem C3_single_field_deregister_rejected :
    FsdMessageType.identify "#DAEGPH_APP" = .err (.InvalidFieldCount 2 1) ∧
      FsdMessageType.identify "#DPN123AB" = .err (.InvalidFieldCount 2 1) := by
  constructor <;> decide

/-- C4: the plane-info request message does not uppercase its callsigns: a
`#SB … PIR` line with lowercase callsigns parses to a record whose `from` and
`to` are stored verbatim, not uppercased. -/
theorem C4_plane_info_request_not_uppercased :
    FsdMessageType.identify "#SBn123ab:eham_twr:PIR" =
        .ok (.PlaneInfoRequestMessage ⟨"n123ab", "eham_twr"⟩) ∧
      rustToUppercase "n123ab" = "N123AB" ∧ ("n123ab" : String) ≠ "N123AB" := by
  refine ⟨?_, ?_, ?_⟩ <;> decide

/-- C5: parsing a `$ER` line with numeric code 5 yields the
`InvalidCallsign` variant (the same variant as code 2) instead of
`InvalidSourceCallsign`; its `error_number` is 2, so the code does not
round-trip — re-serializing writes `002`. -/
theorem C5_error_code_five_miscoded :
    FsdMessageType.identify "$ERSERVER:N123:005:ABC:DEF" =
        .ok (.FsdErrorMessage ⟨"SERVER", "N123", .InvalidCallsign⟩) ∧
      FsdError.InvalidCallsign.error_number = 2 ∧
      FsdError.InvalidSourceCallsign.error_number = 5 ∧
      FsdErrorMessage.display ⟨"SERVER", "N123", .InvalidCallsign⟩ =
        "$ERSERVER:N123:002::" := by
  refine ⟨?_, ?_, ?_, ?_⟩ <;> decide

/-- C8: the manually-keyed stand text `GRP/M/EHAM/A12` parses to a
`ManualStand` carrying the first two slash-chunks `"GRP"` and `"M"` instead
of the icao `"EHAM"` and stand `"A12"`; the exact literal `GRP/M/` does yield
the cancellation variant as claimed. -/
theorem C8_manual_stand_wrong_chunks :
    ScratchPad.fromStr "GRP/M/EHAM/A12" = .ok (.ManualStand "GRP" "M") ∧
      ScratchPad.fromStr "GRP/M/" = .ok .CancelledManualStand := by
  exact ⟨rfl, rfl⟩

/-- C10: the who-has scenario line parses to the client-query record with
`from = "EHAM_GND"`, `to = "@94835"` and subject `"KLM167"`, and
re-serializing that record reproduces the input byte for byte. -/
theorem C10_who_has_scenario_round_trip :
    FsdMessageType.identify "$CQEHAM_GND:@94835:WH:KLM167" =
        .ok (.ClientQueryMessage ⟨"EHAM_GND", "@94835", .WhoHas "KLM167"⟩) ∧
      ClientQueryMessage.display ⟨"EHAM_GND", "@94835", .WhoHas "KLM167"⟩ =
        "$CQEHAM_GND:@94835:WH:KLM167" := by
  constructor <;> decide


/-- Witness for C7 at the frequency 118.300: dotted form `118.300` and wire
form `18300` both parse back to the same value. -/
theorem C7_radio_frequency_dual_form_roundtrip_witness :
    RadioFrequency.try_from_human_readable_string "118.300" = .ok ⟨118, 300⟩ ∧
      RadioFrequency.fromStr "18300" = .ok ⟨118, 300⟩ := by
  have h := C7_radio_frequency_dual_form_roundtrip 118 300
    (Or.inl (by norm_num))
  have e₁ : RadioFrequency.to_human_readable_string ⟨118, 300⟩ = "118.300" := by decide
  have e₂ : RadioFrequency.display ⟨118, 300⟩ = "18300" := by decide
  rw [e₁, e₂] at h
  exact h

end Fsd
